import Mathlib

/-!
# go-mmproxy: the TCP relay engine and listener loop (`mmproxy/tcp.go`)

A shallow embedding of `tcpHandleConnection`, `tcpCopyData` and `TCPListen`.

The handler is sequential code over two sockets, a buffer pool, a decoder and a
dialer.  Every call it makes on one of those collaborators is recorded as an
`Event`; what a collaborator answers is read from an explicit environment
(`Deps`, `Net`, `Conn`, `Upstream`).  The handler is then a pure function from
the environment to the list of calls it performs, in program order, together
with the way the execution ends.

The relaying phase (two goroutines and a buffered channel) and the accept loop
are modelled further down as transition systems.
-/

namespace Mmproxy

/-! ## Data model -/

/-- A byte slice (`[]byte`); a byte is a natural number. -/
abbrev Bytes := List Nat

/-- Go `net.IP`: a byte slice. -/
abbrev IP := List Nat

/-- Go `error` values that are not nil. -/
abbrev GoError := String

/-- Go `net.IPNet`. -/
structure IPNet where
  ip : IP
  mask : List Nat

/-- Go `net.TCPAddr`: the only `net.Addr` the TCP path handles (`conn.RemoteAddr().(*net.TCPAddr)`,
`saddr.(*net.TCPAddr)`). -/
structure TCPAddr where
  ip : IP
  port : Int

/-- The transport constant handed to the decoder (`TCP` in `PROXYReadRemoteAddr(buffer[:n], TCP)`). -/
inductive Protocol where
  | TCP
  | UDP

/-- The four results of `PROXYReadRemoteAddr`: `saddr, daddr, restBytes, err`. -/
structure DecodeResult where
  saddr : Option TCPAddr
  daddr : Option TCPAddr
  restBytes : Bytes
  err : Option GoError

/-- The value `DialUpstreamControl(port, protocol, mark)` returns.  The function is declared outside
`tcp.go`; its result is represented by the arguments of the call that built it. -/
structure ControlHook where
  port : Int
  protocol : String
  mark : Int

/-- The call `DialUpstreamControl(port, protocol, mark)`. -/
def DialUpstreamControl (port : Int) (protocol : String) (mark : Int) : ControlHook :=
  { port := port, protocol := protocol, mark := mark }

/-- The fields of `net.Dialer` the handler sets. -/
structure Dialer where
  LocalAddr : Option TCPAddr
  Control : Option ControlHook

/-- The two results `(n, err)` of one `upstreamConn.Write(p)`. -/
structure WriteResult where
  n : Nat
  err : Option GoError

/-- The results of `conn.Read(buffer)`: `data` is `buffer[:n]` after the call. -/
structure ReadResult where
  data : Bytes
  err : Option GoError

/-- The accepted (downstream) connection, as far as the handler observes it. -/
structure Conn where
  remoteAddr : TCPAddr
  localAddr : TCPAddr
  read : ReadResult
  setNoDelay : Option GoError

/-- The upstream connection returned by `dialer.Dial`: `write k p` is what the `k`-th call
`Write(p)` of the flush loop returns. -/
structure Upstream where
  setNoDelay : Option GoError
  write : Nat → Bytes → WriteResult

/-- The network as the handler observes it: what `dialer.Dial(network, address)` returns, and the
first value delivered on `outErr` (`none` when neither copy task ever publishes). -/
structure Net where
  dial : Dialer → String → String → Except GoError Upstream
  firstResult : Option (Option GoError)

/-- Functions of the package that `tcp.go` calls and that are defined in other files. -/
structure Deps where
  CheckOriginAllowed : IP → List IPNet → Bool
  PROXYReadRemoteAddr : Bytes → Protocol → DecodeResult
  AddrVersion : TCPAddr → Int

/-- The two ends of the relay. -/
inductive Side where
  | downstream
  | upstream

/-- One call made by `tcpHandleConnection`, in program order. -/
inductive Event where
  /-- The call `conn.Close()`. -/
  | connClose
  /-- The call `upstreamConn.Close()`. -/
  | upstreamClose
  /-- The call `GetBuffer()`. -/
  | getBuffer
  /-- The call `PutBuffer(buffer)`. -/
  | putBuffer
  /-- The call `conn.Read(buffer)`. -/
  | connRead
  /-- The call `PROXYReadRemoteAddr(data, proto)`. -/
  | decode (data : Bytes) (proto : Protocol)
  /-- The call `dialer.Dial(network, address)`; `ok` records that it returned no error. -/
  | dial (dialer : Dialer) (network : String) (address : String) (ok : Bool)
  /-- The call `conn.(*net.TCPConn).SetNoDelay(true)`. -/
  | connSetNoDelay
  /-- The call `upstreamConn.(*net.TCPConn).SetNoDelay(true)`. -/
  | upstreamSetNoDelay
  /-- The call `upstreamConn.Write(offered)` and its results. -/
  | upstreamWrite (offered : Bytes) (n : Nat) (err : Option GoError)
  /-- The statement `go tcpCopyData(dst, src, outErr)`. -/
  | goCopy (dst src : Side)
  /-- The completed receive `err = <-outErr`. -/
  | recv (err : Option GoError)
  /-- A call of `logger.Debug`. -/
  | debug (msg : String)

/-- How an execution of the handler ends. -/
inductive Outcome where
  /-- The function returned; its deferred calls have run. -/
  | returned
  /-- The slice expression `restBytes[n:]` was out of range; the deferred calls have run. -/
  | panicked
  /-- The flush loop was still running when the iteration budget was used up. -/
  | spinning
  /-- The handler waits on `<-outErr` for ever. -/
  | blocked
deriving DecidableEq

/-- How the flush loop (lines 99-107) ends. -/
inductive FlushEnd where
  /-- The loop condition became false. -/
  | done
  /-- A write returned an error: `return`. -/
  | failed
  /-- The expression `restBytes[n:]` was out of range. -/
  | panicked
  /-- The iteration budget was used up. -/
  | spinning
deriving DecidableEq

/-! ## The handler -/

/-- A `logger.Debug(msg)` guarded by `if cond`. -/
def debugIf (cond : Bool) (msg : String) : List Event :=
  if cond then [Event.debug msg] else []

/-- Lines 99-107: `for len(restBytes) > 0 { n, err := upstreamConn.Write(restBytes); ... }`.
`k` counts the writes already made; `fuel` bounds the iterations. -/
def flushLoop (up : Upstream) : Nat → Nat → Bytes → FlushEnd × List Event
  | fuel, k, restBytes =>
    if restBytes.length > 0 then
      match fuel with
      | 0 => (FlushEnd.spinning, [])
      | fuel + 1 =>
        let r := up.write k restBytes
        match r.err with
        | some e =>
          (FlushEnd.failed,
            [Event.upstreamWrite restBytes r.n (some e),
             Event.debug "failed to write data to upstream connection"])
        | none =>
          if r.n ≤ restBytes.length then
            let rest := flushLoop up fuel (k + 1) (restBytes.drop r.n)
            (rest.1, Event.upstreamWrite restBytes r.n none :: rest.2)
          else
            (FlushEnd.panicked, [Event.upstreamWrite restBytes r.n none])
    else
      (FlushEnd.done, [])

/-- Lines 54-61: the choice of the target address. -/
def selectTarget (d : Deps) (conn : Conn) (saddr : Option TCPAddr)
    (targetAddr4 targetAddr6 : String) : String :=
  match saddr with
  | none => if d.AddrVersion conn.remoteAddr = 4 then targetAddr4 else targetAddr6
  | some s => if d.AddrVersion s = 4 then targetAddr4 else targetAddr6

/-- Lines 72-75: `dialer := net.Dialer{LocalAddr: saddr}` and the conditional `dialer.Control`. -/
def makeDialer (saddr : Option TCPAddr) (protocol : String) (mark : Int) : Dialer :=
  match saddr with
  | none => { LocalAddr := none, Control := none }
  | some s => { LocalAddr := some s, Control := some (DialUpstreamControl s.port protocol mark) }

/-- Lines 87-97: the two `SetNoDelay(true)` calls with their logging. -/
def tuneSockets (conn : Conn) (up : Upstream) (verbose : Int) : List Event :=
  [Event.connSetNoDelay]
    ++ (match conn.setNoDelay with
        | some _ => [Event.debug "failed to set nodelay on downstream connection"]
        | none => debugIf (decide (verbose > 1)) "successfully set NoDelay on downstream connection")
    ++ [Event.upstreamSetNoDelay]
    ++ (match up.setNoDelay with
        | some _ => [Event.debug "failed to set nodelay on upstream connection"]
        | none => debugIf (decide (verbose > 1)) "successfully set NoDelay on upstream connection")

/-- Lines 109-121: release of the buffer, start of the two copy tasks, receive of the first
result.  Returns the outcome and the calls made. -/
def relayPhase (net : Net) (verbose : Int) : Outcome × List Event :=
  let start :=
    [Event.putBuffer,
     Event.goCopy Side.upstream Side.downstream,
     Event.goCopy Side.downstream Side.upstream]
  match net.firstResult with
  | none => (Outcome.blocked, start)
  | some (some e) => (Outcome.returned, start ++ [Event.recv (some e), Event.debug "connection broken"])
  | some none =>
    (Outcome.returned, start ++ [Event.recv none] ++ debugIf (decide (verbose > 1)) "connection closing")

/-- Lines 83-121, the code after `defer upstreamConn.Close()`.  The third component tells whether
the variable `buffer` is still non-nil when the code stops. -/
def afterDial (net : Net) (conn : Conn) (up : Upstream) (verbose : Int) (restBytes : Bytes)
    (fuel : Nat) : Outcome × List Event × Bool :=
  let pre :=
    debugIf (decide (verbose > 1)) "successfully established upstream connection"
      ++ tuneSockets conn up verbose
  match flushLoop up fuel 0 restBytes with
  | (FlushEnd.failed, ws) => (Outcome.returned, pre ++ ws, true)
  | (FlushEnd.panicked, ws) => (Outcome.panicked, pre ++ ws, true)
  | (FlushEnd.spinning, ws) => (Outcome.spinning, pre ++ ws, true)
  | (FlushEnd.done, ws) =>
    let r := relayPhase net verbose
    (r.1, pre ++ ws ++ r.2, false)

/-- The deferred calls run when the function returns or panics, and only then. -/
def runsDeferred : Outcome → Bool
  | Outcome.returned => true
  | Outcome.panicked => true
  | Outcome.spinning => false
  | Outcome.blocked => false

/-- The deferred calls registered once the upstream connection exists, in the order they run:
`upstreamConn.Close()` (line 82), the buffer release of lines 36-40, `conn.Close()` (line 22). -/
def deferredAfterDial (o : Outcome) (bufferHeld : Bool) : List Event :=
  if runsDeferred o then
    [Event.upstreamClose] ++ (if bufferHeld then [Event.putBuffer] else []) ++ [Event.connClose]
  else []

/-- The function `tcpHandleConnection` (lines 20-122).  The buffer returned by `GetBuffer` is not nil.
The result is the way the execution ends and the calls it made, in order. -/
def tcpHandleConnection (d : Deps) (net : Net) (conn : Conn) (verbose : Int)
    (targetAddr4 targetAddr6 : String) (allowedSubnets : List IPNet) (protocol : String)
    (mark : Int) (fuel : Nat) : Outcome × List Event :=
  if !d.CheckOriginAllowed conn.remoteAddr.ip allowedSubnets then
    (Outcome.returned,
      [Event.debug "connection origin not in allowed subnets", Event.connClose])
  else
    let e1 := debugIf (decide (verbose > 1)) "new connection" ++ [Event.getBuffer, Event.connRead]
    match conn.read.err with
    | some _ =>
      (Outcome.returned,
        e1 ++ [Event.debug "failed to read PROXY header", Event.putBuffer, Event.connClose])
    | none =>
      let r := d.PROXYReadRemoteAddr conn.read.data Protocol.TCP
      let e2 := e1 ++ [Event.decode conn.read.data Protocol.TCP]
      match r.err with
      | some _ =>
        (Outcome.returned,
          e2 ++ [Event.debug "failed to parse PROXY header", Event.putBuffer, Event.connClose])
      | none =>
        let targetAddr := selectTarget d conn r.saddr targetAddr4 targetAddr6
        let dialer := makeDialer r.saddr protocol mark
        let e3 := e2 ++ debugIf (decide (verbose > 1)) "successfully parsed PROXY header"
        match net.dial dialer "tcp" targetAddr with
        | Except.error _ =>
          (Outcome.returned,
            e3 ++ [Event.dial dialer "tcp" targetAddr false,
                   Event.debug "failed to establish upstream connection",
                   Event.putBuffer, Event.connClose])
        | Except.ok up =>
          let body := afterDial net conn up verbose r.restBytes fuel
          (body.1,
            e3 ++ [Event.dial dialer "tcp" targetAddr true] ++ body.2.1
              ++ deferredAfterDial body.1 body.2.2)

/-! ## Observations on a trace -/

/-- Calls of `GetBuffer`. -/
def isGetBuffer : Event → Bool
  | Event.getBuffer => true
  | _ => false

/-- Calls of `PutBuffer`. -/
def isPutBuffer : Event → Bool
  | Event.putBuffer => true
  | _ => false

/-- Calls of `conn.Close`. -/
def isConnClose : Event → Bool
  | Event.connClose => true
  | _ => false

/-- Calls of `upstreamConn.Close`. -/
def isUpstreamClose : Event → Bool
  | Event.upstreamClose => true
  | _ => false

/-- Calls of `conn.Read`. -/
def isConnRead : Event → Bool
  | Event.connRead => true
  | _ => false

/-- Calls of the decoder. -/
def isDecode : Event → Bool
  | Event.decode _ _ => true
  | _ => false

/-- Calls of `dialer.Dial`. -/
def isDial : Event → Bool
  | Event.dial _ _ _ _ => true
  | _ => false

/-- Calls of `dialer.Dial` that returned a connection. -/
def isDialOk : Event → Bool
  | Event.dial _ _ _ ok => ok
  | _ => false

/-- Calls of `upstreamConn.Write`. -/
def isWrite : Event → Bool
  | Event.upstreamWrite _ _ _ => true
  | _ => false

/-- Calls of `upstreamConn.Write` that returned an error. -/
def isFailedWrite : Event → Bool
  | Event.upstreamWrite _ _ (some _) => true
  | _ => false

/-- Starts of a copy task. -/
def isGoCopy : Event → Bool
  | Event.goCopy _ _ => true
  | _ => false

/-- The bytes the successive writes of a trace report as written: for each `Write(p)` returning
`n`, the range `p[:n]`, in order. -/
def accepted : List Event → Bytes
  | [] => []
  | Event.upstreamWrite offered n _ :: tr => offered.take n ++ accepted tr
  | _ :: tr => accepted tr

/-- The pipeline stage a call belongs to: 1 header read, 2 decode, 3 dial, 4 leftover-byte flush,
5 start of relaying. -/
def stage : Event → Option Nat
  | Event.connRead => some 1
  | Event.decode _ _ => some 2
  | Event.dial _ _ _ _ => some 3
  | Event.upstreamWrite _ _ _ => some 4
  | Event.goCopy _ _ => some 5
  | _ => none

/-- Buffers held after the calls of a trace, starting with `held`; `none` when the trace acquires
a buffer while one is held or releases one while none is held. -/
def bufferTrack : List Event → Nat → Option Nat
  | [], held => some held
  | Event.getBuffer :: tr, held => if held = 0 then bufferTrack tr 1 else none
  | Event.putBuffer :: tr, held => if held = 1 then bufferTrack tr 0 else none
  | _ :: tr, held => bufferTrack tr held

/-- A write of a non-empty slice `p` that returns no error reports between 1 and `len(p)`
bytes. -/
def Progresses (up : Upstream) : Prop :=
  ∀ k p, p ≠ [] → (up.write k p).err = none →
    1 ≤ (up.write k p).n ∧ (up.write k p).n ≤ p.length

/-! ## The relaying phase: two copy tasks and the channel `outErr` -/

/-- Capacity of the channel: `make(chan error, 2)` (line 112). -/
def outErrCap : Nat := 2

/-- Where a `tcpCopyData` task stands (lines 15-18). -/
inductive TaskPC where
  /-- Inside `io.Copy(dst, src)`. -/
  | copying
  /-- The copy returned `err`; the task is at `ch <- err`. -/
  | sending (err : Option GoError)
  /-- The send is done and the function returned. -/
  | finished

/-- Where the handler stands from line 116 on. -/
inductive HandlerPC where
  /-- The handler is at `err = <-outErr`. -/
  | receiving
  /-- The receive delivered `err`; logging and the deferred closes are still to run. -/
  | received (err : Option GoError)
  /-- The function returned; both connections are closed. -/
  | returned

/-- State of the relaying phase. `toUpstream` is `go tcpCopyData(upstreamConn, conn, outErr)`,
`toDownstream` is `go tcpCopyData(conn, upstreamConn, outErr)`. The counters record history. -/
structure RelayState where
  chan : List (Option GoError)
  toUpstream : TaskPC
  toDownstream : TaskPC
  handler : HandlerPC
  sentUp : Nat
  sentDown : Nat
  receives : Nat
  closes : Nat

/-- The state right after line 114: empty channel, both tasks started, handler about to receive. -/
def RelayState.init : RelayState :=
  { chan := [], toUpstream := TaskPC.copying, toDownstream := TaskPC.copying,
    handler := HandlerPC.receiving, sentUp := 0, sentDown := 0, receives := 0, closes := 0 }

/-- One atomic step of a `tcpCopyData` task. -/
inductive CopyStep where
  /-- The call `io.Copy(dst, src)` returns `err`. -/
  | copyReturns (err : Option GoError)
  /-- The statement `ch <- err` completes. -/
  | send

/-- One atomic step of one of the three goroutines. -/
inductive RelayAction where
  /-- The call `io.Copy` of the task towards `dst` returns `err`. -/
  | copyReturns (dst : Side) (err : Option GoError)
  /-- The task towards `dst` completes `ch <- err`. -/
  | send (dst : Side)
  /-- The handler completes `err = <-outErr`. -/
  | receive
  /-- The handler logs, returns and runs the deferred closes of both connections. -/
  | closeBoth

/-- A send on a buffered channel completes when the buffer has room; otherwise the sender waits. -/
def sendTo (chan : List (Option GoError)) (err : Option GoError) : Option (List (Option GoError)) :=
  if chan.length < outErrCap then some (chan ++ [err]) else none

/-- The function `tcpCopyData` (lines 15-18), one step at a time: from the position `pc` and the
contents `ch` of the channel to the next position and contents; `none` when the step is not
enabled. -/
def tcpCopyData (pc : TaskPC) (ch : List (Option GoError)) :
    CopyStep → Option (TaskPC × List (Option GoError))
  | CopyStep.copyReturns err =>
    match pc with
    | TaskPC.copying => some (TaskPC.sending err, ch)
    | _ => none
  | CopyStep.send =>
    match pc with
    | TaskPC.sending err => (sendTo ch err).map fun c => (TaskPC.finished, c)
    | _ => none

/-- The step function of the relaying phase: `none` when the action is not enabled in the
state. -/
def RelayState.step (s : RelayState) : RelayAction → Option RelayState
  | RelayAction.copyReturns Side.upstream err =>
    (tcpCopyData s.toUpstream s.chan (CopyStep.copyReturns err)).map fun r =>
      { s with toUpstream := r.1, chan := r.2 }
  | RelayAction.copyReturns Side.downstream err =>
    (tcpCopyData s.toDownstream s.chan (CopyStep.copyReturns err)).map fun r =>
      { s with toDownstream := r.1, chan := r.2 }
  | RelayAction.send Side.upstream =>
    (tcpCopyData s.toUpstream s.chan CopyStep.send).map fun r =>
      { s with toUpstream := r.1, chan := r.2, sentUp := s.sentUp + 1 }
  | RelayAction.send Side.downstream =>
    (tcpCopyData s.toDownstream s.chan CopyStep.send).map fun r =>
      { s with toDownstream := r.1, chan := r.2, sentDown := s.sentDown + 1 }
  | RelayAction.receive =>
    match s.handler, s.chan with
    | HandlerPC.receiving, err :: rest =>
      some { s with chan := rest, handler := HandlerPC.received err, receives := s.receives + 1 }
    | _, _ => none
  | RelayAction.closeBoth =>
    match s.handler with
    | HandlerPC.received _ =>
      some { s with handler := HandlerPC.returned, closes := s.closes + 1 }
    | _ => none

/-- Run a schedule of actions; `none` when one of them is not enabled. -/
def RelayState.run (s : RelayState) : List RelayAction → Option RelayState
  | [] => some s
  | a :: rest => (s.step a).bind fun s1 => s1.run rest

/-- A task is at its send statement. -/
def TaskPC.atSend : TaskPC → Bool
  | TaskPC.sending _ => true
  | _ => false

/-- A task has returned. -/
def TaskPC.isFinished : TaskPC → Bool
  | TaskPC.finished => true
  | _ => false

/-- The handler holds a received result and has not returned yet. -/
def HandlerPC.hasResult : HandlerPC → Bool
  | HandlerPC.received _ => true
  | _ => false

/-- What holds of every state of the relaying phase: a task has sent once exactly when it has
returned, every value sent is in the channel or was received, the handler has received once
exactly when it has left the receive statement, and closed once exactly when it has returned. -/
def RelayInv (s : RelayState) : Prop :=
  s.sentUp = (if s.toUpstream.isFinished then 1 else 0) ∧
  s.sentDown = (if s.toDownstream.isFinished then 1 else 0) ∧
  s.chan.length + s.receives = s.sentUp + s.sentDown ∧
  s.receives = (match s.handler with
    | HandlerPC.receiving => 0
    | _ => 1) ∧
  s.closes = (match s.handler with
    | HandlerPC.returned => 1
    | _ => 0)

/-- Completed receives on `outErr`. -/
def isRecv : Event → Bool
  | Event.recv _ => true
  | _ => false

/-! ## The listener loop -/

/-- One call made by `TCPListen`, in program order. -/
inductive ListenEvent where
  /-- The call `listenConfig.Listen(ctx, network, address)`. -/
  | listen (network : String) (address : String)
  /-- A call of `ln.Accept()`. -/
  | accept
  /-- The statement `go tcpHandleConnection(conn, ...)`, with the execution that task performs. -/
  | spawn (conn : Conn) (run : Outcome × List Event)
  /-- The statement `errors <- err`. -/
  | sendError (err : GoError)
  /-- A call of `logger.Error`. -/
  | logError (msg : String)
  /-- A call of `logger.Info`. -/
  | logInfo (msg : String)

/-- How an execution of `TCPListen` ends. -/
inductive ListenOutcome where
  /-- The function returned. -/
  | returned
  /-- The accept loop was still running when the iteration budget was used up. -/
  | accepting
deriving DecidableEq

/-- What the listener observes: the error of `Listen` (`none` on success) and the result of the
`k`-th `Accept`. -/
structure ListenEnv where
  listen : Option GoError
  accept : Nat → Except GoError Conn

/-- What decides the execution of the task handling the `k`-th accepted connection. -/
structure TaskEnv where
  net : Nat → Net
  fuel : Nat → Nat

/-- Lines 136-145: `for { conn, err := ln.Accept(); ... }`; `k` counts the accepts already made. -/
def acceptLoop (d : Deps) (env : ListenEnv) (tasks : TaskEnv) (verbose : Int)
    (targetAddr4 targetAddr6 : String) (allowedSubnets : List IPNet) (protocol : String)
    (mark : Int) : Nat → Nat → ListenOutcome × List ListenEvent
  | 0, _ => (ListenOutcome.accepting, [])
  | fuel + 1, k =>
    match env.accept k with
    | Except.error e =>
      (ListenOutcome.returned,
        [ListenEvent.accept, ListenEvent.logError "failed to accept new connection",
         ListenEvent.sendError e])
    | Except.ok conn =>
      let rest := acceptLoop d env tasks verbose targetAddr4 targetAddr6 allowedSubnets protocol
        mark fuel (k + 1)
      (rest.1,
        ListenEvent.accept ::
          ListenEvent.spawn conn
            (tcpHandleConnection d (tasks.net k) conn verbose targetAddr4 targetAddr6
              allowedSubnets protocol mark (tasks.fuel k)) :: rest.2)

/-- The function `TCPListen` (lines 124-146). -/
def TCPListen (d : Deps) (env : ListenEnv) (tasks : TaskEnv) (verbose : Int) (listenAddr : String)
    (targetAddr4 targetAddr6 : String) (allowedSubnets : List IPNet) (protocol : String)
    (mark : Int) (fuel : Nat) : ListenOutcome × List ListenEvent :=
  match env.listen with
  | some e =>
    (ListenOutcome.returned,
      [ListenEvent.listen "tcp" listenAddr, ListenEvent.logError "failed to bind listener",
       ListenEvent.sendError e])
  | none =>
    let loop := acceptLoop d env tasks verbose targetAddr4 targetAddr6 allowedSubnets protocol
      mark fuel 0
    (loop.1, [ListenEvent.listen "tcp" listenAddr, ListenEvent.logInfo "listening"] ++ loop.2)

/-- The errors sent on the `errors` channel, in order. -/
def sentErrors : List ListenEvent → List GoError
  | [] => []
  | ListenEvent.sendError e :: tr => e :: sentErrors tr
  | _ :: tr => sentErrors tr

/-- The handler tasks started, in order: the connection each one owns and its execution. -/
def spawns : List ListenEvent → List (Conn × Outcome × List Event)
  | [] => []
  | ListenEvent.spawn conn run :: tr => (conn, run) :: spawns tr
  | _ :: tr => spawns tr

/-- The task that handles the connection returned by the `i`-th `Accept`, if that call returned
one. -/
def acceptedTask (d : Deps) (env : ListenEnv) (tasks : TaskEnv) (verbose : Int)
    (targetAddr4 targetAddr6 : String) (allowedSubnets : List IPNet) (protocol : String)
    (mark : Int) (i : Nat) : Option (Conn × Outcome × List Event) :=
  match env.accept i with
  | Except.ok conn =>
    some (conn, tcpHandleConnection d (tasks.net i) conn verbose targetAddr4 targetAddr6
      allowedSubnets protocol mark (tasks.fuel i))
  | Except.error _ => none

/-- Calls of `ln.Accept`. -/
def isAccept : ListenEvent → Bool
  | ListenEvent.accept => true
  | _ => false

/-- The listener's own calls, with the executions of the spawned tasks left out. -/
def ownCalls : List ListenEvent → List ListenEvent
  | [] => []
  | ListenEvent.spawn conn _ :: tr => ListenEvent.spawn conn (Outcome.returned, []) :: ownCalls tr
  | e :: tr => e :: ownCalls tr

/-! ## Segments of the handler's trace -/

/-- Calls of lines 31-42: the optional log line, `GetBuffer`, `conn.Read`. -/
def headerSeg (verbose : Int) : List Event :=
  debugIf (decide (verbose > 1)) "new connection" ++ [Event.getBuffer, Event.connRead]

/-- Calls of lines 31-76 when the decoder is reached and returns no error, ending with the dial. -/
def dialSeg (d : Deps) (conn : Conn) (verbose : Int) (targetAddr4 targetAddr6 : String)
    (protocol : String) (mark : Int) (ok : Bool) : List Event :=
  headerSeg verbose ++ [Event.decode conn.read.data Protocol.TCP]
    ++ debugIf (decide (verbose > 1)) "successfully parsed PROXY header"
    ++ [Event.dial
          (makeDialer (d.PROXYReadRemoteAddr conn.read.data Protocol.TCP).saddr protocol mark)
          "tcp"
          (selectTarget d conn (d.PROXYReadRemoteAddr conn.read.data Protocol.TCP).saddr
            targetAddr4 targetAddr6) ok]

/-- Calls of lines 83-97. -/
def tuneSeg (conn : Conn) (up : Upstream) (verbose : Int) : List Event :=
  debugIf (decide (verbose > 1)) "successfully established upstream connection"
    ++ tuneSockets conn up verbose

/-- The log line of lines 117-121. -/
def closingLog (r : Option GoError) (verbose : Int) : List Event :=
  match r with
  | some _ => [Event.debug "connection broken"]
  | none => debugIf (decide (verbose > 1)) "connection closing"

/-! ## Sample environments -/

/-- A decoder that finds the source `10.0.0.5:4444` and leaves the payload `GET /`. -/
def sampleDecode : DecodeResult :=
  { saddr := some { ip := [10, 0, 0, 5], port := 4444 },
    daddr := some { ip := [10, 0, 0, 1], port := 80 },
    restBytes := [71, 69, 84, 32, 47], err := none }

/-- A decoder answer for a LOCAL header: no addresses, payload `GET /`. -/
def localDecode : DecodeResult :=
  { saddr := none, daddr := none, restBytes := [71, 69, 84, 32, 47], err := none }

/-- Dependencies: let in peers whose first address byte is 192, version 6 for 16-byte addresses. -/
def sampleDeps (r : DecodeResult) : Deps :=
  { CheckOriginAllowed := fun ip _ => ip.head? == some 192,
    PROXYReadRemoteAddr := fun _ _ => r,
    AddrVersion := fun a => if a.ip.length = 16 then 6 else 4 }

/-- An upstream connection whose writes take at most two bytes at a time. -/
def slowUpstream : Upstream :=
  { setNoDelay := none, write := fun _ p => { n := min 2 p.length, err := none } }

/-- An upstream connection whose second write fails. -/
def failingUpstream : Upstream :=
  { setNoDelay := none,
    write := fun k p => if k = 0 then { n := min 2 p.length, err := none }
                        else { n := 0, err := some "broken pipe" } }

/-- A network where the dial succeeds and the first copy task ends with `nil`. -/
def sampleNet (up : Upstream) : Net :=
  { dial := fun _ _ _ => Except.ok up, firstResult := some none }

/-- An accepted connection from `ip` whose single read delivers 40 bytes. -/
def sampleConn (ip : IP) : Conn :=
  { remoteAddr := { ip := ip, port := 50000 }, localAddr := { ip := [192, 168, 0, 1], port := 443 },
    read := { data := List.replicate 40 0, err := none }, setNoDelay := none }

/-- An accepted connection whose read fails. -/
def deadConn : Conn :=
  { remoteAddr := { ip := [192, 168, 0, 7], port := 50000 },
    localAddr := { ip := [192, 168, 0, 1], port := 443 },
    read := { data := [], err := some "EOF" }, setNoDelay := none }

/-- A listener whose third `Accept` fails, after one healthy and one dead connection. -/
def sampleListenEnv : ListenEnv :=
  { listen := none,
    accept := fun k =>
      if k = 0 then Except.ok (sampleConn [192, 168, 0, 7])
      else if k = 1 then Except.ok deadConn
      else Except.error "too many open files" }

/-- Every task meets the same network and has a budget of five iterations. -/
def sampleTasks : TaskEnv :=
  { net := fun _ => sampleNet slowUpstream, fuel := fun _ => 5 }

/-- A schedule of the relaying phase: the task towards upstream ends first and publishes, the
handler receives and closes both connections, then the copy of the other task fails. -/
def lateLoser : List RelayAction :=
  [RelayAction.copyReturns Side.upstream none, RelayAction.send Side.upstream,
   RelayAction.receive, RelayAction.closeBoth,
   RelayAction.copyReturns Side.downstream (some "use of closed network connection")]

/-- The state the schedule `lateLoser` leads to. -/
def lateLoserState : RelayState :=
  { chan := [], toUpstream := TaskPC.finished,
    toDownstream := TaskPC.sending (some "use of closed network connection"),
    handler := HandlerPC.returned, sentUp := 1, sentDown := 0, receives := 1, closes := 1 }

/-! ## The flush loop -/

theorem flushLoop_empty (up : Upstream) (fuel k : Nat) :
    flushLoop up fuel k [] = (FlushEnd.done, []) := by
  unfold flushLoop
  simp

theorem flushLoop_zero (up : Upstream) (k : Nat) (a : Nat) (p : Bytes) :
    flushLoop up 0 k (a :: p) = (FlushEnd.spinning, []) := by
  unfold flushLoop
  simp

theorem flushLoop_succ (up : Upstream) (fuel k : Nat) (a : Nat) (p : Bytes) :
    flushLoop up (fuel + 1) k (a :: p) =
      match (up.write k (a :: p)).err with
      | some e =>
        (FlushEnd.failed,
          [Event.upstreamWrite (a :: p) (up.write k (a :: p)).n (some e),
           Event.debug "failed to write data to upstream connection"])
      | none =>
        if (up.write k (a :: p)).n ≤ (a :: p).length then
          ((flushLoop up fuel (k + 1) ((a :: p).drop (up.write k (a :: p)).n)).1,
            Event.upstreamWrite (a :: p) (up.write k (a :: p)).n none ::
              (flushLoop up fuel (k + 1) ((a :: p).drop (up.write k (a :: p)).n)).2)
        else
          (FlushEnd.panicked, [Event.upstreamWrite (a :: p) (up.write k (a :: p)).n none]) := by
  conv => lhs; unfold flushLoop
  simp

/-- Every call of the flush loop is a write or a log line. -/
theorem flushLoop_events (up : Upstream) (fuel : Nat) :
    ∀ (k : Nat) (p : Bytes) (e : Event), e ∈ (flushLoop up fuel k p).2 →
      (∃ q n err, e = Event.upstreamWrite q n err) ∨ ∃ m, e = Event.debug m := by
  induction fuel with
  | zero =>
    intro k p e he
    cases p with
    | nil => simp [flushLoop_empty] at he
    | cons a p => simp [flushLoop_zero] at he
  | succ fuel ih =>
    intro k p e he
    cases p with
    | nil => simp [flushLoop_empty] at he
    | cons a p =>
      rw [flushLoop_succ] at he
      cases herr : (up.write k (a :: p)).err with
      | some x =>
        simp only [herr] at he
        simp at he
        rcases he with h | h
        · exact Or.inl ⟨_, _, _, h⟩
        · exact Or.inr ⟨_, h⟩
      | none =>
        simp only [herr] at he
        split at he
        · simp only [List.mem_cons] at he
          rcases he with h | h
          · exact Or.inl ⟨_, _, _, h⟩
          · exact ih _ _ _ h
        · simp only [List.mem_singleton] at he
          exact Or.inl ⟨_, _, _, he⟩

/-- A predicate that holds of no write and of no log line holds of no call of the flush loop. -/
theorem flushLoop_countP (up : Upstream) (fuel k : Nat) (p : Bytes) (f : Event → Bool)
    (hw : ∀ q n err, f (Event.upstreamWrite q n err) = false)
    (hd : ∀ m, f (Event.debug m) = false) :
    (flushLoop up fuel k p).2.countP f = 0 := by
  rw [List.countP_eq_zero]
  intro e he
  rcases flushLoop_events up fuel k p e he with ⟨q, n, err, h⟩ | ⟨m, h⟩
  · simp [h, hw]
  · simp [h, hd]

/-- Every staged call of the flush loop belongs to stage 4. -/
theorem flushLoop_stage (up : Upstream) (fuel k : Nat) (p : Bytes) :
    ∀ x ∈ (flushLoop up fuel k p).2.filterMap stage, x = 4 := by
  intro x hx
  rw [List.mem_filterMap] at hx
  obtain ⟨e, he, hs⟩ := hx
  rcases flushLoop_events up fuel k p e he with ⟨q, n, err, h⟩ | ⟨m, h⟩
  · subst h
    simp [stage] at hs
    exact hs.symm
  · subst h
    simp [stage] at hs

/-- The flush loop contains a failed write exactly when it ends by one. -/
theorem flushLoop_failed (up : Upstream) (fuel : Nat) :
    ∀ (k : Nat) (p : Bytes),
      (flushLoop up fuel k p).2.countP isFailedWrite =
        if (flushLoop up fuel k p).1 = FlushEnd.failed then 1 else 0 := by
  induction fuel with
  | zero =>
    intro k p
    cases p with
    | nil => simp [flushLoop_empty]
    | cons a p => simp [flushLoop_zero]
  | succ fuel ih =>
    intro k p
    cases p with
    | nil => simp [flushLoop_empty]
    | cons a p =>
      rw [flushLoop_succ]
      cases herr : (up.write k (a :: p)).err with
      | some x => simp [isFailedWrite]
      | none =>
        simp only []
        split
        · simp only [List.countP_cons, isFailedWrite]
          simpa using ih (k + 1) _
        · simp [isFailedWrite]

/-- With writes that make progress and a budget of `len(p)` iterations the loop ends, by
exhausting the bytes or by a failed write, after at most `len(p)` writes; when it exhausts the bytes,
the ranges written add up to `p`. -/
theorem flushLoop_progress (up : Upstream) (hp : Progresses up) (fuel : Nat) :
    ∀ (k : Nat) (p : Bytes), p.length ≤ fuel →
      ((flushLoop up fuel k p).1 = FlushEnd.done ∨ (flushLoop up fuel k p).1 = FlushEnd.failed) ∧
      (flushLoop up fuel k p).2.countP isWrite ≤ p.length ∧
      ((flushLoop up fuel k p).1 = FlushEnd.done → accepted (flushLoop up fuel k p).2 = p) := by
  induction fuel with
  | zero =>
    intro k p hlen
    cases p with
    | nil => simp [flushLoop_empty, accepted]
    | cons a p => simp at hlen
  | succ fuel ih =>
    intro k p hlen
    cases p with
    | nil => simp [flushLoop_empty, accepted]
    | cons a p =>
      rw [flushLoop_succ]
      cases herr : (up.write k (a :: p)).err with
      | some x => simp [isWrite]
      | none =>
        obtain ⟨h1, h2⟩ := hp k (a :: p) (List.cons_ne_nil a p) herr
        simp only [h2, if_true]
        have hdrop : ((a :: p).drop (up.write k (a :: p)).n).length ≤ fuel := by
          rw [List.length_drop]
          simp only [List.length_cons] at hlen h2 ⊢
          omega
        obtain ⟨i1, i2, i3⟩ := ih (k + 1) _ hdrop
        refine ⟨i1, ?_, ?_⟩
        · simp only [List.countP_cons, isWrite, if_true]
          rw [List.length_drop] at i2
          simp only [List.length_cons] at i2 h2 ⊢
          omega
        · intro hd
          simp only [accepted]
          rw [i3 hd]
          exact List.take_append_drop _ _

/-! ## Buffer bookkeeping -/

theorem bufferTrack_append (a b : List Event) :
    ∀ held, bufferTrack (a ++ b) held = (bufferTrack a held).bind (bufferTrack b) := by
  induction a with
  | nil => intro held; simp [bufferTrack]
  | cons e a ih =>
    intro held
    cases e <;> simp [bufferTrack, ih] <;> split <;> simp

theorem bufferTrack_skip (l : List Event) (held : Nat)
    (h : ∀ e ∈ l, isGetBuffer e = false ∧ isPutBuffer e = false) :
    bufferTrack l held = some held := by
  induction l with
  | nil => simp [bufferTrack]
  | cons e l ih =>
    have he := h e (List.mem_cons_self _ _)
    have hl : ∀ x ∈ l, isGetBuffer x = false ∧ isPutBuffer x = false :=
      fun x hx => h x (List.mem_cons_of_mem _ hx)
    cases e <;> simp [isGetBuffer, isPutBuffer] at he <;> simp [bufferTrack, ih hl]

theorem flushLoop_bufferTrack (up : Upstream) (fuel k : Nat) (p : Bytes) (held : Nat) :
    bufferTrack (flushLoop up fuel k p).2 held = some held := by
  apply bufferTrack_skip
  intro e he
  rcases flushLoop_events up fuel k p e he with ⟨q, n, err, h⟩ | ⟨m, h⟩ <;>
    simp [h, isGetBuffer, isPutBuffer]

/-! ## Shape of the handler's trace -/

theorem debugIf_countP (c : Bool) (m : String) (f : Event → Bool)
    (hd : ∀ m, f (Event.debug m) = false) : (debugIf c m).countP f = 0 := by
  unfold debugIf
  split <;> simp [hd]

theorem tuneSockets_countP (conn : Conn) (up : Upstream) (verbose : Int) (f : Event → Bool)
    (hd : ∀ m, f (Event.debug m) = false) (h1 : f Event.connSetNoDelay = false)
    (h2 : f Event.upstreamSetNoDelay = false) :
    (tuneSockets conn up verbose).countP f = 0 := by
  unfold tuneSockets
  simp only [List.countP_append, List.countP_cons, List.countP_nil, h1, h2]
  cases conn.setNoDelay <;> cases up.setNoDelay <;> simp [hd, debugIf_countP]

/-- The code after the dial, by the way the flush loop ends. -/
theorem afterDial_eq (net : Net) (conn : Conn) (up : Upstream) (verbose : Int) (p : Bytes)
    (fuel : Nat) :
    afterDial net conn up verbose p fuel =
      match (flushLoop up fuel 0 p).1 with
      | FlushEnd.failed =>
        (Outcome.returned,
          debugIf (decide (verbose > 1)) "successfully established upstream connection"
            ++ tuneSockets conn up verbose ++ (flushLoop up fuel 0 p).2, true)
      | FlushEnd.panicked =>
        (Outcome.panicked,
          debugIf (decide (verbose > 1)) "successfully established upstream connection"
            ++ tuneSockets conn up verbose ++ (flushLoop up fuel 0 p).2, true)
      | FlushEnd.spinning =>
        (Outcome.spinning,
          debugIf (decide (verbose > 1)) "successfully established upstream connection"
            ++ tuneSockets conn up verbose ++ (flushLoop up fuel 0 p).2, true)
      | FlushEnd.done =>
        ((relayPhase net verbose).1,
          debugIf (decide (verbose > 1)) "successfully established upstream connection"
            ++ tuneSockets conn up verbose ++ (flushLoop up fuel 0 p).2
            ++ (relayPhase net verbose).2, false) := by
  unfold afterDial
  rcases hfl : flushLoop up fuel 0 p with ⟨fe, ws⟩
  cases fe <;> rfl

/-- The relaying phase, by the first result delivered. -/
theorem relayPhase_eq (net : Net) (verbose : Int) :
    relayPhase net verbose =
      match net.firstResult with
      | none =>
        (Outcome.blocked,
          [Event.putBuffer, Event.goCopy Side.upstream Side.downstream,
           Event.goCopy Side.downstream Side.upstream])
      | some (some e) =>
        (Outcome.returned,
          [Event.putBuffer, Event.goCopy Side.upstream Side.downstream,
           Event.goCopy Side.downstream Side.upstream, Event.recv (some e),
           Event.debug "connection broken"])
      | some none =>
        (Outcome.returned,
          [Event.putBuffer, Event.goCopy Side.upstream Side.downstream,
           Event.goCopy Side.downstream Side.upstream, Event.recv none]
            ++ debugIf (decide (verbose > 1)) "connection closing") := by
  unfold relayPhase
  rcases net.firstResult with _ | _ | _ <;> rfl

theorem handler_denied (d : Deps) (net : Net) (conn : Conn) (verbose : Int)
    (targetAddr4 targetAddr6 : String) (allowedSubnets : List IPNet) (protocol : String)
    (mark : Int) (fuel : Nat)
    (ha : d.CheckOriginAllowed conn.remoteAddr.ip allowedSubnets = false) :
    tcpHandleConnection d net conn verbose targetAddr4 targetAddr6 allowedSubnets protocol mark
        fuel =
      (Outcome.returned,
        [Event.debug "connection origin not in allowed subnets", Event.connClose]) := by
  simp [tcpHandleConnection, ha]

theorem handler_read_error (d : Deps) (net : Net) (conn : Conn) (verbose : Int)
    (targetAddr4 targetAddr6 : String) (allowedSubnets : List IPNet) (protocol : String)
    (mark : Int) (fuel : Nat) (e : GoError)
    (ha : d.CheckOriginAllowed conn.remoteAddr.ip allowedSubnets = true)
    (hr : conn.read.err = some e) :
    tcpHandleConnection d net conn verbose targetAddr4 targetAddr6 allowedSubnets protocol mark
        fuel =
      (Outcome.returned,
        debugIf (decide (verbose > 1)) "new connection" ++ [Event.getBuffer, Event.connRead]
          ++ [Event.debug "failed to read PROXY header", Event.putBuffer, Event.connClose]) := by
  simp [tcpHandleConnection, ha, hr]

theorem handler_decode_error (d : Deps) (net : Net) (conn : Conn) (verbose : Int)
    (targetAddr4 targetAddr6 : String) (allowedSubnets : List IPNet) (protocol : String)
    (mark : Int) (fuel : Nat) (e : GoError)
    (ha : d.CheckOriginAllowed conn.remoteAddr.ip allowedSubnets = true)
    (hr : conn.read.err = none)
    (hd : (d.PROXYReadRemoteAddr conn.read.data Protocol.TCP).err = some e) :
    tcpHandleConnection d net conn verbose targetAddr4 targetAddr6 allowedSubnets protocol mark
        fuel =
      (Outcome.returned,
        debugIf (decide (verbose > 1)) "new connection" ++ [Event.getBuffer, Event.connRead]
          ++ [Event.decode conn.read.data Protocol.TCP]
          ++ [Event.debug "failed to parse PROXY header", Event.putBuffer, Event.connClose]) := by
  simp [tcpHandleConnection, ha, hr, hd]

theorem handler_dial_error (d : Deps) (net : Net) (conn : Conn) (verbose : Int)
    (targetAddr4 targetAddr6 : String) (allowedSubnets : List IPNet) (protocol : String)
    (mark : Int) (fuel : Nat) (e : GoError)
    (ha : d.CheckOriginAllowed conn.remoteAddr.ip allowedSubnets = true)
    (hr : conn.read.err = none)
    (hd : (d.PROXYReadRemoteAddr conn.read.data Protocol.TCP).err = none)
    (hdial : net.dial
        (makeDialer (d.PROXYReadRemoteAddr conn.read.data Protocol.TCP).saddr protocol mark) "tcp"
        (selectTarget d conn (d.PROXYReadRemoteAddr conn.read.data Protocol.TCP).saddr
          targetAddr4 targetAddr6) = Except.error e) :
    tcpHandleConnection d net conn verbose targetAddr4 targetAddr6 allowedSubnets protocol mark
        fuel =
      (Outcome.returned,
        debugIf (decide (verbose > 1)) "new connection" ++ [Event.getBuffer, Event.connRead]
          ++ [Event.decode conn.read.data Protocol.TCP]
          ++ debugIf (decide (verbose > 1)) "successfully parsed PROXY header"
          ++ [Event.dial
                (makeDialer (d.PROXYReadRemoteAddr conn.read.data Protocol.TCP).saddr protocol mark)
                "tcp"
                (selectTarget d conn (d.PROXYReadRemoteAddr conn.read.data Protocol.TCP).saddr
                  targetAddr4 targetAddr6) false,
              Event.debug "failed to establish upstream connection",
              Event.putBuffer, Event.connClose]) := by
  simp [tcpHandleConnection, ha, hr, hd, hdial]

theorem handler_dial_ok (d : Deps) (net : Net) (conn : Conn) (verbose : Int)
    (targetAddr4 targetAddr6 : String) (allowedSubnets : List IPNet) (protocol : String)
    (mark : Int) (fuel : Nat) (up : Upstream)
    (ha : d.CheckOriginAllowed conn.remoteAddr.ip allowedSubnets = true)
    (hr : conn.read.err = none)
    (hd : (d.PROXYReadRemoteAddr conn.read.data Protocol.TCP).err = none)
    (hdial : net.dial
        (makeDialer (d.PROXYReadRemoteAddr conn.read.data Protocol.TCP).saddr protocol mark) "tcp"
        (selectTarget d conn (d.PROXYReadRemoteAddr conn.read.data Protocol.TCP).saddr
          targetAddr4 targetAddr6) = Except.ok up) :
    tcpHandleConnection d net conn verbose targetAddr4 targetAddr6 allowedSubnets protocol mark
        fuel =
      ((afterDial net conn up verbose
          (d.PROXYReadRemoteAddr conn.read.data Protocol.TCP).restBytes fuel).1,
        debugIf (decide (verbose > 1)) "new connection" ++ [Event.getBuffer, Event.connRead]
          ++ [Event.decode conn.read.data Protocol.TCP]
          ++ debugIf (decide (verbose > 1)) "successfully parsed PROXY header"
          ++ [Event.dial
                (makeDialer (d.PROXYReadRemoteAddr conn.read.data Protocol.TCP).saddr protocol mark)
                "tcp"
                (selectTarget d conn (d.PROXYReadRemoteAddr conn.read.data Protocol.TCP).saddr
                  targetAddr4 targetAddr6) true]
          ++ (afterDial net conn up verbose
                (d.PROXYReadRemoteAddr conn.read.data Protocol.TCP).restBytes fuel).2.1
          ++ deferredAfterDial
              (afterDial net conn up verbose
                (d.PROXYReadRemoteAddr conn.read.data Protocol.TCP).restBytes fuel).1
              (afterDial net conn up verbose
                (d.PROXYReadRemoteAddr conn.read.data Protocol.TCP).restBytes fuel).2.2) := by
  simp [tcpHandleConnection, ha, hr, hd, hdial]

/-- Case analysis on an execution of the handler: the nine ways it can go, each with its trace. -/
theorem handler_cases (d : Deps) (net : Net) (conn : Conn) (verbose : Int)
    (targetAddr4 targetAddr6 : String) (allowedSubnets : List IPNet) (protocol : String)
    (mark : Int) (fuel : Nat) (P : Outcome × List Event → Prop)
    (denied : d.CheckOriginAllowed conn.remoteAddr.ip allowedSubnets = false →
      P (Outcome.returned,
        [Event.debug "connection origin not in allowed subnets", Event.connClose]))
    (readError : ∀ e, d.CheckOriginAllowed conn.remoteAddr.ip allowedSubnets = true →
      conn.read.err = some e →
      P (Outcome.returned,
        headerSeg verbose
          ++ [Event.debug "failed to read PROXY header", Event.putBuffer, Event.connClose]))
    (decodeError : ∀ e, d.CheckOriginAllowed conn.remoteAddr.ip allowedSubnets = true →
      conn.read.err = none →
      (d.PROXYReadRemoteAddr conn.read.data Protocol.TCP).err = some e →
      P (Outcome.returned,
        headerSeg verbose ++ [Event.decode conn.read.data Protocol.TCP]
          ++ [Event.debug "failed to parse PROXY header", Event.putBuffer, Event.connClose]))
    (dialError : ∀ e, d.CheckOriginAllowed conn.remoteAddr.ip allowedSubnets = true →
      conn.read.err = none →
      (d.PROXYReadRemoteAddr conn.read.data Protocol.TCP).err = none →
      net.dial
        (makeDialer (d.PROXYReadRemoteAddr conn.read.data Protocol.TCP).saddr protocol mark) "tcp"
        (selectTarget d conn (d.PROXYReadRemoteAddr conn.read.data Protocol.TCP).saddr
          targetAddr4 targetAddr6) = Except.error e →
      P (Outcome.returned,
        dialSeg d conn verbose targetAddr4 targetAddr6 protocol mark false
          ++ [Event.debug "failed to establish upstream connection", Event.putBuffer,
              Event.connClose]))
    (flushEnds : ∀ up, d.CheckOriginAllowed conn.remoteAddr.ip allowedSubnets = true →
      conn.read.err = none →
      (d.PROXYReadRemoteAddr conn.read.data Protocol.TCP).err = none →
      net.dial
        (makeDialer (d.PROXYReadRemoteAddr conn.read.data Protocol.TCP).saddr protocol mark) "tcp"
        (selectTarget d conn (d.PROXYReadRemoteAddr conn.read.data Protocol.TCP).saddr
          targetAddr4 targetAddr6) = Except.ok up →
      ((flushLoop up fuel 0 (d.PROXYReadRemoteAddr conn.read.data Protocol.TCP).restBytes).1
          = FlushEnd.failed →
        P (Outcome.returned,
          dialSeg d conn verbose targetAddr4 targetAddr6 protocol mark true
            ++ tuneSeg conn up verbose
            ++ (flushLoop up fuel 0
                  (d.PROXYReadRemoteAddr conn.read.data Protocol.TCP).restBytes).2
            ++ [Event.upstreamClose, Event.putBuffer, Event.connClose])) ∧
      ((flushLoop up fuel 0 (d.PROXYReadRemoteAddr conn.read.data Protocol.TCP).restBytes).1
          = FlushEnd.panicked →
        P (Outcome.panicked,
          dialSeg d conn verbose targetAddr4 targetAddr6 protocol mark true
            ++ tuneSeg conn up verbose
            ++ (flushLoop up fuel 0
                  (d.PROXYReadRemoteAddr conn.read.data Protocol.TCP).restBytes).2
            ++ [Event.upstreamClose, Event.putBuffer, Event.connClose])) ∧
      ((flushLoop up fuel 0 (d.PROXYReadRemoteAddr conn.read.data Protocol.TCP).restBytes).1
          = FlushEnd.spinning →
        P (Outcome.spinning,
          dialSeg d conn verbose targetAddr4 targetAddr6 protocol mark true
            ++ tuneSeg conn up verbose
            ++ (flushLoop up fuel 0
                  (d.PROXYReadRemoteAddr conn.read.data Protocol.TCP).restBytes).2)) ∧
      ((flushLoop up fuel 0 (d.PROXYReadRemoteAddr conn.read.data Protocol.TCP).restBytes).1
          = FlushEnd.done → net.firstResult = none →
        P (Outcome.blocked,
          dialSeg d conn verbose targetAddr4 targetAddr6 protocol mark true
            ++ tuneSeg conn up verbose
            ++ (flushLoop up fuel 0
                  (d.PROXYReadRemoteAddr conn.read.data Protocol.TCP).restBytes).2
            ++ [Event.putBuffer, Event.goCopy Side.upstream Side.downstream,
                Event.goCopy Side.downstream Side.upstream])) ∧
      (∀ r, (flushLoop up fuel 0 (d.PROXYReadRemoteAddr conn.read.data Protocol.TCP).restBytes).1
          = FlushEnd.done → net.firstResult = some r →
        P (Outcome.returned,
          dialSeg d conn verbose targetAddr4 targetAddr6 protocol mark true
            ++ tuneSeg conn up verbose
            ++ (flushLoop up fuel 0
                  (d.PROXYReadRemoteAddr conn.read.data Protocol.TCP).restBytes).2
            ++ [Event.putBuffer, Event.goCopy Side.upstream Side.downstream,
                Event.goCopy Side.downstream Side.upstream, Event.recv r]
            ++ closingLog r verbose
            ++ [Event.upstreamClose, Event.connClose]))) :
    P (tcpHandleConnection d net conn verbose targetAddr4 targetAddr6 allowedSubnets protocol mark
        fuel) := by
  cases ha : d.CheckOriginAllowed conn.remoteAddr.ip allowedSubnets with
  | false => rw [handler_denied _ _ _ _ _ _ _ _ _ _ ha]; exact denied ha
  | true =>
    cases hr : conn.read.err with
    | some e =>
      rw [handler_read_error _ _ _ _ _ _ _ _ _ _ e ha hr]
      exact readError e ha hr
    | none =>
      cases hd : (d.PROXYReadRemoteAddr conn.read.data Protocol.TCP).err with
      | some e =>
        rw [handler_decode_error _ _ _ _ _ _ _ _ _ _ e ha hr hd]
        exact decodeError e ha hr hd
      | none =>
        cases hdial : net.dial
          (makeDialer (d.PROXYReadRemoteAddr conn.read.data Protocol.TCP).saddr protocol mark)
          "tcp"
          (selectTarget d conn (d.PROXYReadRemoteAddr conn.read.data Protocol.TCP).saddr
            targetAddr4 targetAddr6) with
        | error e =>
          rw [handler_dial_error _ _ _ _ _ _ _ _ _ _ e ha hr hd hdial]
          have := dialError e ha hr hd hdial
          simpa [dialSeg, headerSeg] using this
        | ok up =>
          rw [handler_dial_ok _ _ _ _ _ _ _ _ _ _ up ha hr hd hdial, afterDial_eq, relayPhase_eq]
          obtain ⟨c1, c2, c3, c4, c5⟩ := flushEnds up ha hr hd hdial
          cases hfe : (flushLoop up fuel 0
              (d.PROXYReadRemoteAddr conn.read.data Protocol.TCP).restBytes).1 with
          | failed =>
            have := c1 hfe
            simpa [dialSeg, headerSeg, tuneSeg, deferredAfterDial, runsDeferred] using this
          | panicked =>
            have := c2 hfe
            simpa [dialSeg, headerSeg, tuneSeg, deferredAfterDial, runsDeferred] using this
          | spinning =>
            have := c3 hfe
            simpa [dialSeg, headerSeg, tuneSeg, deferredAfterDial, runsDeferred] using this
          | done =>
            cases hres : net.firstResult with
            | none =>
              have := c4 hfe hres
              simpa [dialSeg, headerSeg, tuneSeg, deferredAfterDial, runsDeferred] using this
            | some r =>
              have := c5 r hfe hres
              cases r <;>
                simpa [dialSeg, headerSeg, tuneSeg, deferredAfterDial, runsDeferred, closingLog]
                  using this

/-! ## Counting calls in the segments -/

theorem headerSeg_countP (verbose : Int) (f : Event → Bool)
    (hd : ∀ m, f (Event.debug m) = false) :
    (headerSeg verbose).countP f =
      (if f Event.getBuffer then 1 else 0) + (if f Event.connRead then 1 else 0) := by
  unfold headerSeg
  simp only [List.countP_append, debugIf_countP _ _ f hd, List.countP_cons, List.countP_nil]
  omega

theorem tuneSeg_countP (conn : Conn) (up : Upstream) (verbose : Int) (f : Event → Bool)
    (hd : ∀ m, f (Event.debug m) = false) (h1 : f Event.connSetNoDelay = false)
    (h2 : f Event.upstreamSetNoDelay = false) :
    (tuneSeg conn up verbose).countP f = 0 := by
  unfold tuneSeg
  simp [List.countP_append, debugIf_countP _ _ f hd, tuneSockets_countP _ _ _ f hd h1 h2]

theorem closingLog_countP (r : Option GoError) (verbose : Int) (f : Event → Bool)
    (hd : ∀ m, f (Event.debug m) = false) :
    (closingLog r verbose).countP f = 0 := by
  unfold closingLog
  cases r <;> simp [debugIf_countP _ _ f hd, hd]

theorem dialSeg_countP (d : Deps) (conn : Conn) (verbose : Int) (targetAddr4 targetAddr6 : String)
    (protocol : String) (mark : Int) (ok : Bool) (f : Event → Bool)
    (hd : ∀ m, f (Event.debug m) = false) :
    (dialSeg d conn verbose targetAddr4 targetAddr6 protocol mark ok).countP f =
      (if f Event.getBuffer then 1 else 0) + (if f Event.connRead then 1 else 0)
        + (if f (Event.decode conn.read.data Protocol.TCP) then 1 else 0)
        + (if f (Event.dial
              (makeDialer (d.PROXYReadRemoteAddr conn.read.data Protocol.TCP).saddr protocol mark)
              "tcp"
              (selectTarget d conn (d.PROXYReadRemoteAddr conn.read.data Protocol.TCP).saddr
                targetAddr4 targetAddr6) ok) then 1 else 0) := by
  unfold dialSeg
  simp only [List.countP_append, debugIf_countP _ _ f hd, headerSeg_countP _ f hd,
    List.countP_cons, List.countP_nil]
  omega

theorem filter_nil_of_countP (l : List Event) (f : Event → Bool) (h : l.countP f = 0) :
    l.filter f = [] := by
  rw [List.countP_eq_zero] at h
  rw [List.filter_eq_nil_iff]
  exact h

theorem mem_filter_of_mem (l : List Event) (f : Event → Bool) (e : Event) (h : e ∈ l)
    (hf : f e = true) : e ∈ l.filter f := by
  rw [List.mem_filter]
  exact ⟨h, hf⟩

/-- The dial calls of an execution: none, or the single call built on lines 72-76. -/
theorem dial_calls (d : Deps) (net : Net) (conn : Conn) (verbose : Int)
    (targetAddr4 targetAddr6 : String) (allowedSubnets : List IPNet) (protocol : String)
    (mark : Int) (fuel : Nat) :
    ((d.CheckOriginAllowed conn.remoteAddr.ip allowedSubnets = false ∨ conn.read.err ≠ none ∨
        (d.PROXYReadRemoteAddr conn.read.data Protocol.TCP).err ≠ none) ∧
      (tcpHandleConnection d net conn verbose targetAddr4 targetAddr6 allowedSubnets protocol mark
        fuel).2.filter isDial = []) ∨
    ((d.CheckOriginAllowed conn.remoteAddr.ip allowedSubnets = true ∧ conn.read.err = none ∧
        (d.PROXYReadRemoteAddr conn.read.data Protocol.TCP).err = none) ∧
      ∃ ok, (tcpHandleConnection d net conn verbose targetAddr4 targetAddr6 allowedSubnets protocol
        mark fuel).2.filter isDial =
        [Event.dial
          (makeDialer (d.PROXYReadRemoteAddr conn.read.data Protocol.TCP).saddr protocol mark)
          "tcp"
          (selectTarget d conn (d.PROXYReadRemoteAddr conn.read.data Protocol.TCP).saddr
            targetAddr4 targetAddr6) ok]) := by
  have hseg : ∀ ok, (dialSeg d conn verbose targetAddr4 targetAddr6 protocol mark ok).filter isDial
      = [Event.dial
          (makeDialer (d.PROXYReadRemoteAddr conn.read.data Protocol.TCP).saddr protocol mark)
          "tcp"
          (selectTarget d conn (d.PROXYReadRemoteAddr conn.read.data Protocol.TCP).saddr
            targetAddr4 targetAddr6) ok] := by
    intro ok
    unfold dialSeg headerSeg
    simp [List.filter_append, isDial, filter_nil_of_countP, debugIf_countP]
  apply handler_cases d net conn verbose targetAddr4 targetAddr6 allowedSubnets protocol mark fuel
    (fun r => ((d.CheckOriginAllowed conn.remoteAddr.ip allowedSubnets = false ∨
          conn.read.err ≠ none ∨
          (d.PROXYReadRemoteAddr conn.read.data Protocol.TCP).err ≠ none) ∧
        r.2.filter isDial = []) ∨
      ((d.CheckOriginAllowed conn.remoteAddr.ip allowedSubnets = true ∧ conn.read.err = none ∧
          (d.PROXYReadRemoteAddr conn.read.data Protocol.TCP).err = none) ∧
        ∃ ok, r.2.filter isDial =
          [Event.dial
            (makeDialer (d.PROXYReadRemoteAddr conn.read.data Protocol.TCP).saddr protocol mark)
            "tcp"
            (selectTarget d conn (d.PROXYReadRemoteAddr conn.read.data Protocol.TCP).saddr
              targetAddr4 targetAddr6) ok]))
  · intro ha
    exact Or.inl ⟨Or.inl ha, by simp [isDial]⟩
  · intro e _ hr
    refine Or.inl ⟨Or.inr (Or.inl (by simp [hr])), ?_⟩
    simp [List.filter_append, isDial, filter_nil_of_countP, headerSeg_countP]
  · intro e _ _ hd
    refine Or.inl ⟨Or.inr (Or.inr (by simp [hd])), ?_⟩
    simp [List.filter_append, isDial, filter_nil_of_countP, headerSeg_countP]
  · intro e ha hr hd _
    refine Or.inr ⟨⟨ha, hr, hd⟩, false, ?_⟩
    simp [List.filter_append, hseg, isDial]
  · intro up ha hr hd _
    refine ⟨?_, ?_, ?_, ?_, ?_⟩
    all_goals
      intros
      refine Or.inr ⟨⟨ha, hr, hd⟩, true, ?_⟩
      simp [List.filter_append, hseg, isDial, filter_nil_of_countP, tuneSeg_countP,
        flushLoop_countP, closingLog_countP]

/-- A dial call found in the trace is the one built on lines 72-76. -/
theorem dial_mem (d : Deps) (net : Net) (conn : Conn) (verbose : Int)
    (targetAddr4 targetAddr6 : String) (allowedSubnets : List IPNet) (protocol : String)
    (mark : Int) (fuel : Nat) (dl : Dialer) (nw ad : String) (ok : Bool)
    (h : Event.dial dl nw ad ok ∈ (tcpHandleConnection d net conn verbose targetAddr4 targetAddr6
      allowedSubnets protocol mark fuel).2) :
    dl = makeDialer (d.PROXYReadRemoteAddr conn.read.data Protocol.TCP).saddr protocol mark ∧
    nw = "tcp" ∧
    ad = selectTarget d conn (d.PROXYReadRemoteAddr conn.read.data Protocol.TCP).saddr
      targetAddr4 targetAddr6 := by
  have hf := mem_filter_of_mem _ isDial _ h rfl
  rcases dial_calls d net conn verbose targetAddr4 targetAddr6 allowedSubnets protocol mark fuel
    with ⟨_, hnil⟩ | ⟨_, ok1, heq⟩
  · rw [hnil] at hf
    simp at hf
  · rw [heq] at hf
    simp only [List.mem_singleton] at hf
    injection hf with h1 h2 h3 h4
    exact ⟨h1, h2, h3⟩

/-- With writes that make progress, a first relay result and a budget of `len(restBytes)`
iterations, the handler returns. -/
theorem handler_returns (d : Deps) (net : Net) (conn : Conn) (verbose : Int)
    (targetAddr4 targetAddr6 : String) (allowedSubnets : List IPNet) (protocol : String)
    (mark : Int) (fuel : Nat)
    (hprog : ∀ dl nw ad up, net.dial dl nw ad = Except.ok up → Progresses up)
    (hres : net.firstResult ≠ none)
    (hfuel : (d.PROXYReadRemoteAddr conn.read.data Protocol.TCP).restBytes.length ≤ fuel) :
    (tcpHandleConnection d net conn verbose targetAddr4 targetAddr6 allowedSubnets protocol mark
        fuel).1 = Outcome.returned := by
  apply handler_cases d net conn verbose targetAddr4 targetAddr6 allowedSubnets protocol mark
    fuel (fun r => r.1 = Outcome.returned)
  · intros; rfl
  · intros; rfl
  · intros; rfl
  · intros; rfl
  · intro up _ _ _ hdial
    have hp := (flushLoop_progress up (hprog _ _ _ up hdial) fuel 0 _ hfuel).1
    refine ⟨fun _ => rfl, ?_, ?_, ?_, fun _ _ _ => rfl⟩
    · intro h
      rw [h] at hp
      rcases hp with hp | hp <;> cases hp
    · intro h
      rw [h] at hp
      rcases hp with hp | hp <;> cases hp
    · intro _ h
      exact absurd h hres

theorem headerSeg_bufferTrack (verbose : Int) : bufferTrack (headerSeg verbose) 0 = some 1 := by
  unfold headerSeg debugIf
  split <;> simp [bufferTrack]

theorem dialSeg_bufferTrack (d : Deps) (conn : Conn) (verbose : Int)
    (targetAddr4 targetAddr6 : String) (protocol : String) (mark : Int) (ok : Bool) :
    bufferTrack (dialSeg d conn verbose targetAddr4 targetAddr6 protocol mark ok) 0 = some 1 := by
  unfold dialSeg
  simp only [bufferTrack_append, headerSeg_bufferTrack, Option.some_bind, bufferTrack]
  unfold debugIf
  split <;> simp [bufferTrack]

theorem tuneSeg_bufferTrack (conn : Conn) (up : Upstream) (verbose : Int) (held : Nat) :
    bufferTrack (tuneSeg conn up verbose) held = some held := by
  apply bufferTrack_skip
  intro e he
  have h1 := tuneSeg_countP conn up verbose isGetBuffer (by simp [isGetBuffer])
    (by simp [isGetBuffer]) (by simp [isGetBuffer])
  have h2 := tuneSeg_countP conn up verbose isPutBuffer (by simp [isPutBuffer])
    (by simp [isPutBuffer]) (by simp [isPutBuffer])
  rw [List.countP_eq_zero] at h1 h2
  exact ⟨by simpa using h1 e he, by simpa using h2 e he⟩

theorem closingLog_bufferTrack (r : Option GoError) (verbose : Int) (held : Nat) :
    bufferTrack (closingLog r verbose) held = some held := by
  apply bufferTrack_skip
  intro e he
  have h1 := closingLog_countP r verbose isGetBuffer (by simp [isGetBuffer])
  have h2 := closingLog_countP r verbose isPutBuffer (by simp [isPutBuffer])
  rw [List.countP_eq_zero] at h1 h2
  exact ⟨by simpa using h1 e he, by simpa using h2 e he⟩

/-- The sample upstream connection makes progress. -/
theorem slowUpstream_progresses : Progresses slowUpstream := by
  intro k p hne _
  cases p with
  | nil => exact absurd rfl hne
  | cons a p =>
    simp only [slowUpstream, List.length_cons]
    omega

/-! ## Stages -/

theorem stage_nil_of_countP (l : List Event)
    (h : l.countP (fun e => (stage e).isSome) = 0) : l.filterMap stage = [] := by
  induction l with
  | nil => rfl
  | cons e l ih =>
    rw [List.countP_cons] at h
    have h1 : l.countP (fun e => (stage e).isSome) = 0 := by omega
    have h2 : (stage e).isSome = false := by
      cases hs : (stage e).isSome with
      | false => rfl
      | true => simp [hs] at h
    have h3 : stage e = none := by
      cases hs : stage e with
      | none => rfl
      | some x => simp [hs] at h2
    simp [List.filterMap_cons, h3, ih h1]

theorem debugIf_stage (c : Bool) (m : String) : (debugIf c m).filterMap stage = [] := by
  unfold debugIf
  split <;> simp [stage]

theorem headerSeg_stage (verbose : Int) : (headerSeg verbose).filterMap stage = [1] := by
  unfold headerSeg
  simp [List.filterMap_append, debugIf_stage, stage]

theorem dialSeg_stage (d : Deps) (conn : Conn) (verbose : Int) (targetAddr4 targetAddr6 : String)
    (protocol : String) (mark : Int) (ok : Bool) :
    (dialSeg d conn verbose targetAddr4 targetAddr6 protocol mark ok).filterMap stage
      = [1, 2, 3] := by
  unfold dialSeg
  simp [List.filterMap_append, headerSeg_stage, debugIf_stage, stage]

theorem tuneSeg_stage (conn : Conn) (up : Upstream) (verbose : Int) :
    (tuneSeg conn up verbose).filterMap stage = [] := by
  apply stage_nil_of_countP
  exact tuneSeg_countP conn up verbose _ (by simp [stage]) (by simp [stage]) (by simp [stage])

theorem closingLog_stage (r : Option GoError) (verbose : Int) :
    (closingLog r verbose).filterMap stage = [] := by
  apply stage_nil_of_countP
  exact closingLog_countP r verbose _ (by simp [stage])

theorem pairwise_of_all_eq (l : List Nat) (c : Nat) (h : ∀ x ∈ l, x = c) :
    l.Pairwise (fun a b => a ≤ b) := by
  induction l with
  | nil => exact List.Pairwise.nil
  | cons a l ih =>
    refine List.Pairwise.cons ?_ (ih (fun x hx => h x (List.mem_cons_of_mem _ hx)))
    intro b hb
    rw [h a (List.mem_cons_self _ _), h b (List.mem_cons_of_mem _ hb)]

/-- The stages of a trace `[1, 2, 3]`, then stage 4 only, then a tail of stage 5 are in order. -/
theorem stages_ordered (ws tail : List Nat) (h4 : ∀ x ∈ ws, x = 4) (h5 : ∀ x ∈ tail, x = 5) :
    ([1, 2, 3] ++ ws ++ tail).Pairwise (fun a b => a ≤ b) := by
  rw [List.pairwise_append, List.pairwise_append]
  refine ⟨⟨by simp, pairwise_of_all_eq ws 4 h4, ?_⟩, pairwise_of_all_eq tail 5 h5, ?_⟩
  · intro a ha b hb
    rw [h4 b hb]
    simp at ha
    omega
  · intro a ha b hb
    rw [h5 b hb]
    rw [List.mem_append] at ha
    rcases ha with ha | ha
    · simp at ha
      omega
    · rw [h4 a ha]
      omega

/-! ## Bytes written -/

theorem accepted_append (a b : List Event) : accepted (a ++ b) = accepted a ++ accepted b := by
  induction a with
  | nil => simp [accepted]
  | cons e a ih => cases e <;> simp [accepted, ih]

theorem accepted_nil_of_countP (l : List Event) (h : l.countP isWrite = 0) : accepted l = [] := by
  induction l with
  | nil => rfl
  | cons e l ih =>
    rw [List.countP_cons] at h
    have h1 : l.countP isWrite = 0 := by omega
    cases e <;> simp [isWrite] at h <;> simp [accepted, ih h1]

/-! ## The relaying phase -/

theorem relayInv_init : RelayInv RelayState.init := by
  simp [RelayInv, RelayState.init, TaskPC.isFinished]

/-- The step function with the steps of the copy tasks spelled out. -/
theorem RelayState.step_eq (s : RelayState) (a : RelayAction) :
    s.step a =
      match a with
      | RelayAction.copyReturns Side.upstream err =>
        match s.toUpstream with
        | TaskPC.copying => some { s with toUpstream := TaskPC.sending err }
        | _ => none
      | RelayAction.copyReturns Side.downstream err =>
        match s.toDownstream with
        | TaskPC.copying => some { s with toDownstream := TaskPC.sending err }
        | _ => none
      | RelayAction.send Side.upstream =>
        match s.toUpstream with
        | TaskPC.sending err =>
          (sendTo s.chan err).map fun c =>
            { s with chan := c, toUpstream := TaskPC.finished, sentUp := s.sentUp + 1 }
        | _ => none
      | RelayAction.send Side.downstream =>
        match s.toDownstream with
        | TaskPC.sending err =>
          (sendTo s.chan err).map fun c =>
            { s with chan := c, toDownstream := TaskPC.finished, sentDown := s.sentDown + 1 }
        | _ => none
      | RelayAction.receive =>
        match s.handler, s.chan with
        | HandlerPC.receiving, err :: rest =>
          some { s with chan := rest, handler := HandlerPC.received err,
                        receives := s.receives + 1 }
        | _, _ => none
      | RelayAction.closeBoth =>
        match s.handler with
        | HandlerPC.received _ =>
          some { s with handler := HandlerPC.returned, closes := s.closes + 1 }
        | _ => none := by
  cases a with
  | copyReturns dst err =>
    cases dst <;> simp only [RelayState.step, tcpCopyData]
    · cases s.toDownstream <;> rfl
    · cases s.toUpstream <;> rfl
  | send dst =>
    cases dst <;> simp only [RelayState.step, tcpCopyData]
    · cases s.toDownstream with
      | sending e => cases h : sendTo s.chan e <;> simp [h]
      | copying => rfl
      | finished => rfl
    · cases s.toUpstream with
      | sending e => cases h : sendTo s.chan e <;> simp [h]
      | copying => rfl
      | finished => rfl
  | receive => rfl
  | closeBoth => rfl

theorem relayInv_step (s t : RelayState) (a : RelayAction) (hinv : RelayInv s)
    (hstep : s.step a = some t) : RelayInv t := by
  obtain ⟨i1, i2, i3, i4, i5⟩ := hinv
  cases a with
  | copyReturns dst err =>
    cases dst with
    | upstream =>
      simp only [RelayState.step_eq] at hstep
      cases hu : s.toUpstream with
      | copying =>
        simp only [hu, Option.some.injEq] at hstep
        subst hstep
        simp only [hu, TaskPC.isFinished] at i1
        exact ⟨by simpa [TaskPC.isFinished] using i1, i2, i3, i4, i5⟩
      | sending e => simp [hu] at hstep
      | finished => simp [hu] at hstep
    | downstream =>
      simp only [RelayState.step_eq] at hstep
      cases hu : s.toDownstream with
      | copying =>
        simp only [hu, Option.some.injEq] at hstep
        subst hstep
        simp only [hu, TaskPC.isFinished] at i2
        exact ⟨i1, by simpa [TaskPC.isFinished] using i2, i3, i4, i5⟩
      | sending e => simp [hu] at hstep
      | finished => simp [hu] at hstep
  | send dst =>
    cases dst with
    | upstream =>
      simp only [RelayState.step_eq] at hstep
      cases hu : s.toUpstream with
      | copying => simp [hu] at hstep
      | finished => simp [hu] at hstep
      | sending e =>
        simp only [hu, sendTo, Option.map_eq_some'] at hstep
        obtain ⟨c, hc, ht⟩ := hstep
        split at hc
        · simp only [Option.some.injEq] at hc
          subst hc
          subst ht
          simp only [hu, TaskPC.isFinished] at i1
          refine ⟨by simp [TaskPC.isFinished, i1], i2, ?_, i4, i5⟩
          simp only [List.length_append, List.length_singleton]
          omega
        · cases hc
    | downstream =>
      simp only [RelayState.step_eq] at hstep
      cases hu : s.toDownstream with
      | copying => simp [hu] at hstep
      | finished => simp [hu] at hstep
      | sending e =>
        simp only [hu, sendTo, Option.map_eq_some'] at hstep
        obtain ⟨c, hc, ht⟩ := hstep
        split at hc
        · simp only [Option.some.injEq] at hc
          subst hc
          subst ht
          simp only [hu, TaskPC.isFinished] at i2
          refine ⟨i1, by simp [TaskPC.isFinished, i2], ?_, i4, i5⟩
          simp only [List.length_append, List.length_singleton]
          omega
        · cases hc
  | receive =>
    simp only [RelayState.step_eq] at hstep
    cases hh : s.handler with
    | receiving =>
      cases hc : s.chan with
      | nil => simp [hh, hc] at hstep
      | cons e rest =>
        simp only [hh, hc, Option.some.injEq] at hstep
        subst hstep
        simp only [hh] at i4 i5
        simp only [hc, List.length_cons] at i3
        refine ⟨i1, i2, ?_, by simp [i4], by simpa using i5⟩
        simp only
        omega
    | received e => simp [hh] at hstep
    | returned => simp [hh] at hstep
  | closeBoth =>
    simp only [RelayState.step_eq] at hstep
    cases hh : s.handler with
    | receiving => simp [hh] at hstep
    | returned => simp [hh] at hstep
    | received e =>
      simp only [hh, Option.some.injEq] at hstep
      subst hstep
      simp only [hh] at i4 i5
      exact ⟨i1, i2, i3, by simpa using i4, by simp [i5]⟩

theorem relayInv_run (sched : List RelayAction) :
    ∀ (s t : RelayState), RelayInv s → s.run sched = some t → RelayInv t := by
  induction sched with
  | nil =>
    intro s t hinv hrun
    simp only [RelayState.run, Option.some.injEq] at hrun
    subst hrun
    exact hinv
  | cons a rest ih =>
    intro s t hinv hrun
    simp only [RelayState.run] at hrun
    cases hs : s.step a with
    | none => simp [hs] at hrun
    | some s1 =>
      simp only [hs, Option.some_bind] at hrun
      exact ih s1 t (relayInv_step s s1 a hinv hs) hrun

/-! ## The accept loop -/

theorem sentErrors_append (a b : List ListenEvent) :
    sentErrors (a ++ b) = sentErrors a ++ sentErrors b := by
  induction a with
  | nil => simp [sentErrors]
  | cons e a ih => cases e <;> simp [sentErrors, ih]

/-- The accept loop when the `n`-th accept from `k` on is the first to fail. -/
theorem acceptLoop_fails (d : Deps) (env : ListenEnv) (tasks : TaskEnv) (verbose : Int)
    (targetAddr4 targetAddr6 : String) (allowedSubnets : List IPNet) (protocol : String)
    (mark : Int) (e : GoError) (n : Nat) :
    ∀ (k fuel : Nat), env.accept (k + n) = Except.error e →
      (∀ i, i < n → ∃ c, env.accept (k + i) = Except.ok c) → n < fuel →
      (acceptLoop d env tasks verbose targetAddr4 targetAddr6 allowedSubnets protocol mark fuel
        k).1 = ListenOutcome.returned ∧
      ∃ pre,
        (acceptLoop d env tasks verbose targetAddr4 targetAddr6 allowedSubnets protocol mark fuel
          k).2 = pre ++ [ListenEvent.sendError e] ∧
        sentErrors pre = [] ∧ pre.countP isAccept = n + 1 ∧
        spawns pre = (List.range' k n).filterMap
          (acceptedTask d env tasks verbose targetAddr4 targetAddr6 allowedSubnets protocol
            mark) := by
  induction n with
  | zero =>
    intro k fuel hfail _ hfuel
    cases fuel with
    | zero => omega
    | succ fuel =>
      simp only [Nat.add_zero] at hfail
      refine ⟨by simp [acceptLoop, hfail],
        [ListenEvent.accept, ListenEvent.logError "failed to accept new connection"], ?_, ?_, ?_,
        ?_⟩
      · simp [acceptLoop, hfail]
      · simp [sentErrors]
      · simp [isAccept]
      · simp [spawns]
  | succ n ih =>
    intro k fuel hfail hok hfuel
    cases fuel with
    | zero => omega
    | succ fuel =>
      obtain ⟨c, hc⟩ := hok 0 (by omega)
      simp only [Nat.add_zero] at hc
      have hfail1 : env.accept (k + 1 + n) = Except.error e := by
        have : k + 1 + n = k + (n + 1) := by omega
        rw [this]
        exact hfail
      have hok1 : ∀ i, i < n → ∃ c, env.accept (k + 1 + i) = Except.ok c := by
        intro i hi
        have : k + 1 + i = k + (i + 1) := by omega
        rw [this]
        exact hok (i + 1) (by omega)
      obtain ⟨hout, pre, hpre, hs, hcnt, hsp⟩ := ih (k + 1) fuel hfail1 hok1 (by omega)
      refine ⟨by simp [acceptLoop, hc, hout],
        ListenEvent.accept ::
          ListenEvent.spawn c
            (tcpHandleConnection d (tasks.net k) c verbose targetAddr4 targetAddr6
              allowedSubnets protocol mark (tasks.fuel k)) :: pre, ?_, ?_, ?_, ?_⟩
      · simp [acceptLoop, hc, hpre]
      · simp [sentErrors, hs]
      · simp [isAccept, hcnt]
      · rw [List.range'_succ]
        simp [spawns, hsp, List.filterMap_cons, acceptedTask, hc]

/-- The accept loop when no accept fails: it runs as long as its budget lasts and sends
nothing. -/
theorem acceptLoop_runs (d : Deps) (env : ListenEnv) (tasks : TaskEnv) (verbose : Int)
    (targetAddr4 targetAddr6 : String) (allowedSubnets : List IPNet) (protocol : String)
    (mark : Int) (hok : ∀ i, ∃ c, env.accept i = Except.ok c) (fuel : Nat) :
    ∀ k,
      (acceptLoop d env tasks verbose targetAddr4 targetAddr6 allowedSubnets protocol mark fuel
        k).1 = ListenOutcome.accepting ∧
      sentErrors (acceptLoop d env tasks verbose targetAddr4 targetAddr6 allowedSubnets protocol
        mark fuel k).2 = [] ∧
      (acceptLoop d env tasks verbose targetAddr4 targetAddr6 allowedSubnets protocol mark fuel
        k).2.countP isAccept = fuel := by
  induction fuel with
  | zero =>
    intro k
    simp [acceptLoop, sentErrors]
  | succ fuel ih =>
    intro k
    obtain ⟨c, hc⟩ := hok k
    obtain ⟨h1, h2, h3⟩ := ih (k + 1)
    simp [acceptLoop, hc, h1, h2, h3, sentErrors, isAccept]

/-- The listener's own calls and the way the loop ends do not depend on what decides the
executions of the handler tasks. -/
theorem acceptLoop_independent (d d1 : Deps) (env : ListenEnv) (tasks tasks1 : TaskEnv)
    (verbose : Int) (targetAddr4 targetAddr6 : String) (allowedSubnets : List IPNet)
    (protocol : String) (mark : Int) (fuel : Nat) :
    ∀ k,
      (acceptLoop d1 env tasks1 verbose targetAddr4 targetAddr6 allowedSubnets protocol mark fuel
        k).1 =
        (acceptLoop d env tasks verbose targetAddr4 targetAddr6 allowedSubnets protocol mark fuel
          k).1 ∧
      ownCalls (acceptLoop d1 env tasks1 verbose targetAddr4 targetAddr6 allowedSubnets protocol
        mark fuel k).2 =
        ownCalls (acceptLoop d env tasks verbose targetAddr4 targetAddr6 allowedSubnets protocol
          mark fuel k).2 := by
  induction fuel with
  | zero =>
    intro k
    simp [acceptLoop]
  | succ fuel ih =>
    intro k
    obtain ⟨h1, h2⟩ := ih (k + 1)
    cases hc : env.accept k with
    | error e => simp [acceptLoop, hc]
    | ok c => simp [acceptLoop, hc, h1, h2, ownCalls]

/-! ## Claims -/

/-- C1: in every execution of `tcpHandleConnection` where the address versions of the real peer
and of the decoded source (when there is one) are 4 or 6, the address of the upstream dial is
`targetAddr6` if a decoded source is present and is IPv6, or if none was decoded and the real
peer is IPv6; it is `targetAddr4` in every other case. -/
theorem C1_target_selection (d : Deps) (net : Net) (conn : Conn) (verbose : Int)
    (targetAddr4 targetAddr6 : String) (allowedSubnets : List IPNet) (protocol : String)
    (mark : Int) (fuel : Nat) (dl : Dialer) (nw ad : String) (ok : Bool)
    (hpeer : d.AddrVersion conn.remoteAddr = 4 ∨ d.AddrVersion conn.remoteAddr = 6)
    (hsrc : ∀ s, (d.PROXYReadRemoteAddr conn.read.data Protocol.TCP).saddr = some s →
      d.AddrVersion s = 4 ∨ d.AddrVersion s = 6)
    (hdial : Event.dial dl nw ad ok ∈ (tcpHandleConnection d net conn verbose targetAddr4
      targetAddr6 allowedSubnets protocol mark fuel).2) :
    (((∃ s, (d.PROXYReadRemoteAddr conn.read.data Protocol.TCP).saddr = some s ∧
          d.AddrVersion s = 6) ∨
        ((d.PROXYReadRemoteAddr conn.read.data Protocol.TCP).saddr = none ∧
          d.AddrVersion conn.remoteAddr = 6)) → ad = targetAddr6) ∧
    (¬ ((∃ s, (d.PROXYReadRemoteAddr conn.read.data Protocol.TCP).saddr = some s ∧
          d.AddrVersion s = 6) ∨
        ((d.PROXYReadRemoteAddr conn.read.data Protocol.TCP).saddr = none ∧
          d.AddrVersion conn.remoteAddr = 6)) → ad = targetAddr4) := by
  obtain ⟨_, _, had⟩ := dial_mem d net conn verbose targetAddr4 targetAddr6 allowedSubnets
    protocol mark fuel dl nw ad ok hdial
  subst had
  cases hs : (d.PROXYReadRemoteAddr conn.read.data Protocol.TCP).saddr with
  | none =>
    simp only [selectTarget]
    constructor
    · intro h
      rcases h with ⟨s, h, _⟩ | ⟨_, h⟩
      · cases h
      · simp [h]
    · intro h
      have h4 : d.AddrVersion conn.remoteAddr = 4 := by
        rcases hpeer with h4 | h6
        · exact h4
        · exact absurd (Or.inr ⟨trivial, h6⟩) h
      simp [h4]
  | some s =>
    simp only [selectTarget]
    constructor
    · intro h
      rcases h with ⟨s1, h, h6⟩ | ⟨h, _⟩
      · cases h
        simp [h6]
      · cases h
    · intro h
      have h4 : d.AddrVersion s = 4 := by
        rcases hsrc s hs with h4 | h6
        · exact h4
        · exact absurd (Or.inl ⟨s, rfl, h6⟩) h
      simp [h4]

/-- C1, at an IPv6 peer relaying for the IPv4 client 10.0.0.5:4444: the dial goes to the IPv4
target. -/
theorem C1_target_selection_witness :
    Event.dial (makeDialer sampleDecode.saddr "tcp" 123) "tcp" "127.0.0.1:80" true ∈
      (tcpHandleConnection (sampleDeps sampleDecode) (sampleNet slowUpstream)
        (sampleConn (192 :: List.replicate 15 0)) 0 "127.0.0.1:80" "[::1]:80" [] "tcp" 123 5).2 ∧
    ¬ ((∃ s, sampleDecode.saddr = some s ∧ (sampleDeps sampleDecode).AddrVersion s = 6) ∨
        (sampleDecode.saddr = none ∧
          (sampleDeps sampleDecode).AddrVersion
            (sampleConn (192 :: List.replicate 15 0)).remoteAddr = 6)) ∧
    "127.0.0.1:80" = "127.0.0.1:80" :=
  have hmem : Event.dial (makeDialer sampleDecode.saddr "tcp" 123) "tcp" "127.0.0.1:80" true ∈
      (tcpHandleConnection (sampleDeps sampleDecode) (sampleNet slowUpstream)
        (sampleConn (192 :: List.replicate 15 0)) 0 "127.0.0.1:80" "[::1]:80" [] "tcp" 123 5).2 := by
    simp [tcpHandleConnection, sampleDeps, sampleConn, sampleNet, sampleDecode, debugIf,
      makeDialer, selectTarget, DialUpstreamControl]
  have hcond : ¬ ((∃ s, sampleDecode.saddr = some s ∧
        (sampleDeps sampleDecode).AddrVersion s = 6) ∨
        (sampleDecode.saddr = none ∧
          (sampleDeps sampleDecode).AddrVersion
            (sampleConn (192 :: List.replicate 15 0)).remoteAddr = 6)) := by
    simp [sampleDecode, sampleDeps]
  ⟨hmem, hcond,
    (C1_target_selection (sampleDeps sampleDecode) (sampleNet slowUpstream)
      (sampleConn (192 :: List.replicate 15 0)) 0 "127.0.0.1:80" "[::1]:80" [] "tcp" 123 5
      (makeDialer sampleDecode.saddr "tcp" 123) "tcp" "127.0.0.1:80" true
      (by simp [sampleDeps, sampleConn])
      (by simp [sampleDeps, sampleDecode])
      hmem).2 hcond⟩

/-- C2: when `CheckOriginAllowed` denies the real remote IP against the configured subnets, the
handler logs, closes the downstream connection and returns: no buffer, no read, no decoder, no
dialer, no upstream write. When it allows the peer, the buffer is acquired and the read is made.
Nothing but the remote IP and the subnet list enters the decision: the statement holds for every
header, decoder, network and setting. -/
theorem C2_denied_peer_no_work (d : Deps) (net : Net) (conn : Conn) (verbose : Int)
    (targetAddr4 targetAddr6 : String) (allowedSubnets : List IPNet) (protocol : String)
    (mark : Int) (fuel : Nat) :
    (d.CheckOriginAllowed conn.remoteAddr.ip allowedSubnets = false →
      tcpHandleConnection d net conn verbose targetAddr4 targetAddr6 allowedSubnets protocol mark
          fuel =
        (Outcome.returned,
          [Event.debug "connection origin not in allowed subnets", Event.connClose])) ∧
    (d.CheckOriginAllowed conn.remoteAddr.ip allowedSubnets = true →
      (tcpHandleConnection d net conn verbose targetAddr4 targetAddr6 allowedSubnets protocol mark
          fuel).2.countP isGetBuffer = 1 ∧
      (tcpHandleConnection d net conn verbose targetAddr4 targetAddr6 allowedSubnets protocol mark
          fuel).2.countP isConnRead = 1) := by
  constructor
  · intro ha
    exact handler_denied _ _ _ _ _ _ _ _ _ _ ha
  · intro ha
    apply handler_cases d net conn verbose targetAddr4 targetAddr6 allowedSubnets protocol mark
      fuel (fun r => r.2.countP isGetBuffer = 1 ∧ r.2.countP isConnRead = 1)
    · intro hden
      rw [ha] at hden
      cases hden
    · intros
      simp [List.countP_append, headerSeg_countP, isGetBuffer, isConnRead]
    · intros
      simp [List.countP_append, headerSeg_countP, isGetBuffer, isConnRead]
    · intros
      simp [List.countP_append, dialSeg_countP, isGetBuffer, isConnRead]
    · intro up _ _ _ _
      refine ⟨?_, ?_, ?_, ?_, ?_⟩
      all_goals
        intros
        simp [List.countP_append, dialSeg_countP, tuneSeg_countP, flushLoop_countP,
          closingLog_countP, isGetBuffer, isConnRead]

/-- C2, at a peer 10.9.9.9 outside the allowed range and at the allowed peer 192.168.0.7, both
sending the same bytes. -/
theorem C2_denied_peer_no_work_witness :
    tcpHandleConnection (sampleDeps sampleDecode) (sampleNet slowUpstream)
        (sampleConn [10, 9, 9, 9]) 2 "127.0.0.1:80" "[::1]:80" [] "tcp" 123 5 =
      (Outcome.returned,
        [Event.debug "connection origin not in allowed subnets", Event.connClose]) ∧
    (tcpHandleConnection (sampleDeps sampleDecode) (sampleNet slowUpstream)
        (sampleConn [192, 168, 0, 7]) 2 "127.0.0.1:80" "[::1]:80" [] "tcp" 123 5).2.countP
      isGetBuffer = 1 :=
  ⟨(C2_denied_peer_no_work (sampleDeps sampleDecode) (sampleNet slowUpstream)
      (sampleConn [10, 9, 9, 9]) 2 "127.0.0.1:80" "[::1]:80" [] "tcp" 123 5).1
      (by simp [sampleDeps, sampleConn]),
   ((C2_denied_peer_no_work (sampleDeps sampleDecode) (sampleNet slowUpstream)
      (sampleConn [192, 168, 0, 7]) 2 "127.0.0.1:80" "[::1]:80" [] "tcp" 123 5).2
      (by simp [sampleDeps, sampleConn])).1⟩

/-- C5: when the peer is allowed, the read succeeds and the decoder returns no error, the handler
dials exactly once, on network "tcp", to the selected target address, with a dialer whose local
address is the decoded source address: that address when one is present, none when none was
decoded. -/
theorem C5_dialer_local_address (d : Deps) (net : Net) (conn : Conn) (verbose : Int)
    (targetAddr4 targetAddr6 : String) (allowedSubnets : List IPNet) (protocol : String)
    (mark : Int) (fuel : Nat)
    (ha : d.CheckOriginAllowed conn.remoteAddr.ip allowedSubnets = true)
    (hr : conn.read.err = none)
    (hd : (d.PROXYReadRemoteAddr conn.read.data Protocol.TCP).err = none) :
    ∃ dl ok,
      (tcpHandleConnection d net conn verbose targetAddr4 targetAddr6 allowedSubnets protocol mark
          fuel).2.filter isDial =
        [Event.dial dl "tcp"
          (selectTarget d conn (d.PROXYReadRemoteAddr conn.read.data Protocol.TCP).saddr
            targetAddr4 targetAddr6) ok] ∧
      dl.LocalAddr = (d.PROXYReadRemoteAddr conn.read.data Protocol.TCP).saddr ∧
      (∀ s, (d.PROXYReadRemoteAddr conn.read.data Protocol.TCP).saddr = some s →
        dl.LocalAddr = some s) ∧
      ((d.PROXYReadRemoteAddr conn.read.data Protocol.TCP).saddr = none → dl.LocalAddr = none) := by
  rcases dial_calls d net conn verbose targetAddr4 targetAddr6 allowedSubnets protocol mark fuel
    with ⟨h, _⟩ | ⟨_, ok, heq⟩
  · rcases h with h | h | h
    · rw [ha] at h; cases h
    · exact absurd hr h
    · exact absurd hd h
  · refine ⟨_, ok, heq, ?_, ?_, ?_⟩
    · cases (d.PROXYReadRemoteAddr conn.read.data Protocol.TCP).saddr <;> rfl
    · intro s hs
      rw [hs]
      rfl
    · intro hs
      rw [hs]
      rfl

/-- C5, at the binary header of client 10.0.0.5:4444 followed by `GET /`: the dial is bound to
10.0.0.5:4444. -/
theorem C5_dialer_local_address_witness :
    ∃ dl ok,
      (tcpHandleConnection (sampleDeps sampleDecode) (sampleNet slowUpstream)
          (sampleConn [192, 168, 0, 7]) 0 "127.0.0.1:80" "[::1]:80" [] "tcp" 123 5).2.filter
          isDial =
        [Event.dial dl "tcp" "127.0.0.1:80" ok] ∧
      dl.LocalAddr = some { ip := [10, 0, 0, 5], port := 4444 } := by
  obtain ⟨dl, ok, h1, h2, _⟩ :=
    C5_dialer_local_address (sampleDeps sampleDecode) (sampleNet slowUpstream)
      (sampleConn [192, 168, 0, 7]) 0 "127.0.0.1:80" "[::1]:80" [] "tcp" 123 5
      (by simp [sampleDeps, sampleConn]) (by simp [sampleConn])
      (by simp [sampleDeps, sampleDecode])
  exact ⟨dl, ok, h1, h2⟩

/-- C6, as the claim states it, fails: after a LOCAL header (no source decoded) the handler
dials with a dialer that carries no socket-preparation hook. -/
theorem C6_counterexample :
    ¬ (∀ dl nw ad ok,
        Event.dial dl nw ad ok ∈
          (tcpHandleConnection (sampleDeps localDecode) (sampleNet slowUpstream)
            (sampleConn [192, 168, 0, 7]) 0 "127.0.0.1:80" "[::1]:80" [] "tcp" 123 5).2 →
        dl.Control.isSome = true) := by
  intro h
  have hmem : Event.dial { LocalAddr := none, Control := none } "tcp" "127.0.0.1:80" true ∈
      (tcpHandleConnection (sampleDeps localDecode) (sampleNet slowUpstream)
        (sampleConn [192, 168, 0, 7]) 0 "127.0.0.1:80" "[::1]:80" [] "tcp" 123 5).2 := by
    simp [tcpHandleConnection, sampleDeps, sampleConn, sampleNet, localDecode, debugIf,
      makeDialer, selectTarget]
  have := h _ _ _ _ hmem
  simp at this

/-- C6 (amended): every upstream dial issued by `tcpHandleConnection` carries the hook
`DialUpstreamControl(port of the decoded source, protocol, mark)` when a source address was
decoded, and carries no hook when none was decoded. -/
theorem C6_dialer_control_hook (d : Deps) (net : Net) (conn : Conn) (verbose : Int)
    (targetAddr4 targetAddr6 : String) (allowedSubnets : List IPNet) (protocol : String)
    (mark : Int) (fuel : Nat) (dl : Dialer) (nw ad : String) (ok : Bool)
    (hdial : Event.dial dl nw ad ok ∈ (tcpHandleConnection d net conn verbose targetAddr4
      targetAddr6 allowedSubnets protocol mark fuel).2) :
    (∀ s, (d.PROXYReadRemoteAddr conn.read.data Protocol.TCP).saddr = some s →
      dl.Control = some (DialUpstreamControl s.port protocol mark)) ∧
    ((d.PROXYReadRemoteAddr conn.read.data Protocol.TCP).saddr = none → dl.Control = none) := by
  obtain ⟨hdl, _, _⟩ := dial_mem d net conn verbose targetAddr4 targetAddr6 allowedSubnets
    protocol mark fuel dl nw ad ok hdial
  subst hdl
  constructor
  · intro s hs
    rw [hs]
    rfl
  · intro hs
    rw [hs]
    rfl

/-- C6 (amended), at the header of client 10.0.0.5:4444 with protocol "tcp" and mark 123. -/
theorem C6_dialer_control_hook_witness :
    (makeDialer sampleDecode.saddr "tcp" 123).Control
      = some (DialUpstreamControl 4444 "tcp" 123) :=
  (C6_dialer_control_hook (sampleDeps sampleDecode) (sampleNet slowUpstream)
    (sampleConn [192, 168, 0, 7]) 0 "127.0.0.1:80" "[::1]:80" [] "tcp" 123 5
    (makeDialer sampleDecode.saddr "tcp" 123) "tcp" "127.0.0.1:80" true
    (by simp [tcpHandleConnection, sampleDeps, sampleConn, sampleNet, sampleDecode, debugIf,
      makeDialer, selectTarget, DialUpstreamControl])).1
    { ip := [10, 0, 0, 5], port := 4444 } rfl

/-- C3: in every execution of `tcpHandleConnection` at most one buffer is acquired, never more are
released than were acquired, a release always follows its acquisition, and once the handler has
returned (or panicked) the number of `PutBuffer` calls equals the number of `GetBuffer` calls, so
no buffer is outstanding. With writes that make progress and a first relay result, the handler
does return. -/
theorem C3_buffer_released_once (d : Deps) (net : Net) (conn : Conn) (verbose : Int)
    (targetAddr4 targetAddr6 : String) (allowedSubnets : List IPNet) (protocol : String)
    (mark : Int) (fuel : Nat) :
    (tcpHandleConnection d net conn verbose targetAddr4 targetAddr6 allowedSubnets protocol mark
        fuel).2.countP isGetBuffer ≤ 1 ∧
    (tcpHandleConnection d net conn verbose targetAddr4 targetAddr6 allowedSubnets protocol mark
        fuel).2.countP isPutBuffer ≤
      (tcpHandleConnection d net conn verbose targetAddr4 targetAddr6 allowedSubnets protocol mark
        fuel).2.countP isGetBuffer ∧
    (∃ held, bufferTrack (tcpHandleConnection d net conn verbose targetAddr4 targetAddr6
        allowedSubnets protocol mark fuel).2 0 = some held ∧ held ≤ 1) ∧
    (((tcpHandleConnection d net conn verbose targetAddr4 targetAddr6 allowedSubnets protocol mark
          fuel).1 = Outcome.returned ∨
        (tcpHandleConnection d net conn verbose targetAddr4 targetAddr6 allowedSubnets protocol mark
          fuel).1 = Outcome.panicked) →
      (tcpHandleConnection d net conn verbose targetAddr4 targetAddr6 allowedSubnets protocol mark
          fuel).2.countP isPutBuffer =
        (tcpHandleConnection d net conn verbose targetAddr4 targetAddr6 allowedSubnets protocol mark
          fuel).2.countP isGetBuffer ∧
      bufferTrack (tcpHandleConnection d net conn verbose targetAddr4 targetAddr6
        allowedSubnets protocol mark fuel).2 0 = some 0) ∧
    ((∀ dl nw ad up, net.dial dl nw ad = Except.ok up → Progresses up) →
      net.firstResult ≠ none →
      (d.PROXYReadRemoteAddr conn.read.data Protocol.TCP).restBytes.length ≤ fuel →
      (tcpHandleConnection d net conn verbose targetAddr4 targetAddr6 allowedSubnets protocol mark
        fuel).1 = Outcome.returned) := by
  refine ⟨?_, ?_, ?_, ?_, handler_returns d net conn verbose targetAddr4 targetAddr6
    allowedSubnets protocol mark fuel⟩
  · apply handler_cases d net conn verbose targetAddr4 targetAddr6 allowedSubnets protocol mark
      fuel (fun r => r.2.countP isGetBuffer ≤ 1)
    · intros; simp [isGetBuffer]
    · intros; simp [List.countP_append, headerSeg_countP, isGetBuffer]
    · intros; simp [List.countP_append, headerSeg_countP, isGetBuffer]
    · intros; simp [List.countP_append, dialSeg_countP, isGetBuffer]
    · intro up _ _ _ _
      refine ⟨?_, ?_, ?_, ?_, ?_⟩
      all_goals
        intros
        simp [List.countP_append, dialSeg_countP, tuneSeg_countP, flushLoop_countP,
          closingLog_countP, isGetBuffer]
  · apply handler_cases d net conn verbose targetAddr4 targetAddr6 allowedSubnets protocol mark
      fuel (fun r => r.2.countP isPutBuffer ≤ r.2.countP isGetBuffer)
    · intros; simp [isGetBuffer, isPutBuffer]
    · intros; simp [List.countP_append, headerSeg_countP, isGetBuffer, isPutBuffer]
    · intros; simp [List.countP_append, headerSeg_countP, isGetBuffer, isPutBuffer]
    · intros; simp [List.countP_append, dialSeg_countP, isGetBuffer, isPutBuffer]
    · intro up _ _ _ _
      refine ⟨?_, ?_, ?_, ?_, ?_⟩
      all_goals
        intros
        simp [List.countP_append, dialSeg_countP, tuneSeg_countP, flushLoop_countP,
          closingLog_countP, isGetBuffer, isPutBuffer]
  · apply handler_cases d net conn verbose targetAddr4 targetAddr6 allowedSubnets protocol mark
      fuel (fun r => ∃ held, bufferTrack r.2 0 = some held ∧ held ≤ 1)
    · intros; exact ⟨0, by simp [bufferTrack], by omega⟩
    · intros
      exact ⟨0, by simp [bufferTrack_append, headerSeg_bufferTrack, bufferTrack], by omega⟩
    · intros
      exact ⟨0, by simp [bufferTrack_append, headerSeg_bufferTrack, bufferTrack], by omega⟩
    · intros
      exact ⟨0, by simp [bufferTrack_append, dialSeg_bufferTrack, bufferTrack], by omega⟩
    · intro up _ _ _ _
      refine ⟨?_, ?_, ?_, ?_, ?_⟩
      · intros
        exact ⟨0, by simp [bufferTrack_append, dialSeg_bufferTrack, tuneSeg_bufferTrack,
          flushLoop_bufferTrack, bufferTrack], by omega⟩
      · intros
        exact ⟨0, by simp [bufferTrack_append, dialSeg_bufferTrack, tuneSeg_bufferTrack,
          flushLoop_bufferTrack, bufferTrack], by omega⟩
      · intros
        exact ⟨1, by simp [bufferTrack_append, dialSeg_bufferTrack, tuneSeg_bufferTrack,
          flushLoop_bufferTrack], by omega⟩
      · intros
        exact ⟨0, by simp [bufferTrack_append, dialSeg_bufferTrack, tuneSeg_bufferTrack,
          flushLoop_bufferTrack, bufferTrack], by omega⟩
      · intros
        exact ⟨0, by simp [bufferTrack_append, dialSeg_bufferTrack, tuneSeg_bufferTrack,
          flushLoop_bufferTrack, closingLog_bufferTrack, bufferTrack], by omega⟩
  · apply handler_cases d net conn verbose targetAddr4 targetAddr6 allowedSubnets protocol mark
      fuel (fun r => (r.1 = Outcome.returned ∨ r.1 = Outcome.panicked) →
        r.2.countP isPutBuffer = r.2.countP isGetBuffer ∧ bufferTrack r.2 0 = some 0)
    · intros; simp [isGetBuffer, isPutBuffer, bufferTrack]
    · intros
      simp [List.countP_append, headerSeg_countP, isGetBuffer, isPutBuffer, bufferTrack_append,
        headerSeg_bufferTrack, bufferTrack]
    · intros
      simp [List.countP_append, headerSeg_countP, isGetBuffer, isPutBuffer, bufferTrack_append,
        headerSeg_bufferTrack, bufferTrack]
    · intros
      simp [List.countP_append, dialSeg_countP, isGetBuffer, isPutBuffer, bufferTrack_append,
        dialSeg_bufferTrack, bufferTrack]
    · intro up _ _ _ _
      refine ⟨?_, ?_, ?_, ?_, ?_⟩
      · intros
        simp [List.countP_append, dialSeg_countP, tuneSeg_countP, flushLoop_countP,
          isGetBuffer, isPutBuffer, bufferTrack_append, dialSeg_bufferTrack,
          tuneSeg_bufferTrack, flushLoop_bufferTrack, bufferTrack]
      · intros
        simp [List.countP_append, dialSeg_countP, tuneSeg_countP, flushLoop_countP,
          isGetBuffer, isPutBuffer, bufferTrack_append, dialSeg_bufferTrack,
          tuneSeg_bufferTrack, flushLoop_bufferTrack, bufferTrack]
      · intro _ h
        simp at h
      · intro _ _ h
        simp at h
      · intros
        simp [List.countP_append, dialSeg_countP, tuneSeg_countP, flushLoop_countP,
          closingLog_countP, isGetBuffer, isPutBuffer, bufferTrack_append, dialSeg_bufferTrack,
          tuneSeg_bufferTrack, flushLoop_bufferTrack, closingLog_bufferTrack, bufferTrack]

/-- C3, at a relayed connection (header of 10.0.0.5:4444, five leftover bytes written in three
writes, first relay result `nil`): the handler returns with as many releases as acquisitions. -/
theorem C3_buffer_released_once_witness :
    (tcpHandleConnection (sampleDeps sampleDecode) (sampleNet slowUpstream)
        (sampleConn [192, 168, 0, 7]) 0 "127.0.0.1:80" "[::1]:80" [] "tcp" 123 5).1
      = Outcome.returned ∧
    (tcpHandleConnection (sampleDeps sampleDecode) (sampleNet slowUpstream)
        (sampleConn [192, 168, 0, 7]) 0 "127.0.0.1:80" "[::1]:80" [] "tcp" 123 5).2.countP
        isPutBuffer =
      (tcpHandleConnection (sampleDeps sampleDecode) (sampleNet slowUpstream)
        (sampleConn [192, 168, 0, 7]) 0 "127.0.0.1:80" "[::1]:80" [] "tcp" 123 5).2.countP
        isGetBuffer :=
  have hret : (tcpHandleConnection (sampleDeps sampleDecode) (sampleNet slowUpstream)
      (sampleConn [192, 168, 0, 7]) 0 "127.0.0.1:80" "[::1]:80" [] "tcp" 123 5).1
      = Outcome.returned :=
    (C3_buffer_released_once (sampleDeps sampleDecode) (sampleNet slowUpstream)
      (sampleConn [192, 168, 0, 7]) 0 "127.0.0.1:80" "[::1]:80" [] "tcp" 123 5).2.2.2.2
      (by
        intro dl nw ad up h
        simp only [sampleNet, Except.ok.injEq] at h
        rw [← h]
        exact slowUpstream_progresses)
      (by simp [sampleNet])
      (by simp [sampleDeps, sampleDecode])
  ⟨hret,
    ((C3_buffer_released_once (sampleDeps sampleDecode) (sampleNet slowUpstream)
      (sampleConn [192, 168, 0, 7]) 0 "127.0.0.1:80" "[::1]:80" [] "tcp" 123 5).2.2.2.1
      (Or.inl hret)).1⟩

/-- C8: in every execution of `tcpHandleConnection` that has returned (admission denial, read
error, decode error, dial error, flush error, relay completion) or panicked, `Close` has been
called exactly once on the downstream connection, and on the upstream connection exactly once if
the dial succeeded and not at all otherwise; no execution closes either connection twice. With
writes that make progress and a first relay result, the handler does return. -/
theorem C8_connections_closed_once (d : Deps) (net : Net) (conn : Conn) (verbose : Int)
    (targetAddr4 targetAddr6 : String) (allowedSubnets : List IPNet) (protocol : String)
    (mark : Int) (fuel : Nat) :
    ((tcpHandleConnection d net conn verbose targetAddr4 targetAddr6 allowedSubnets protocol mark
        fuel).2.countP isConnClose ≤ 1 ∧
      (tcpHandleConnection d net conn verbose targetAddr4 targetAddr6 allowedSubnets protocol mark
        fuel).2.countP isUpstreamClose ≤
        (tcpHandleConnection d net conn verbose targetAddr4 targetAddr6 allowedSubnets protocol
          mark fuel).2.countP isDialOk ∧
      (tcpHandleConnection d net conn verbose targetAddr4 targetAddr6 allowedSubnets protocol mark
        fuel).2.countP isDialOk ≤ 1) ∧
    (((tcpHandleConnection d net conn verbose targetAddr4 targetAddr6 allowedSubnets protocol mark
          fuel).1 = Outcome.returned ∨
        (tcpHandleConnection d net conn verbose targetAddr4 targetAddr6 allowedSubnets protocol mark
          fuel).1 = Outcome.panicked) →
      (tcpHandleConnection d net conn verbose targetAddr4 targetAddr6 allowedSubnets protocol mark
          fuel).2.countP isConnClose = 1 ∧
      ((tcpHandleConnection d net conn verbose targetAddr4 targetAddr6 allowedSubnets protocol
            mark fuel).2.countP isDialOk = 1 →
        (tcpHandleConnection d net conn verbose targetAddr4 targetAddr6 allowedSubnets protocol
            mark fuel).2.countP isUpstreamClose = 1) ∧
      ((tcpHandleConnection d net conn verbose targetAddr4 targetAddr6 allowedSubnets protocol
            mark fuel).2.countP isDialOk = 0 →
        (tcpHandleConnection d net conn verbose targetAddr4 targetAddr6 allowedSubnets protocol
            mark fuel).2.countP isUpstreamClose = 0)) ∧
    ((∀ dl nw ad up, net.dial dl nw ad = Except.ok up → Progresses up) →
      net.firstResult ≠ none →
      (d.PROXYReadRemoteAddr conn.read.data Protocol.TCP).restBytes.length ≤ fuel →
      (tcpHandleConnection d net conn verbose targetAddr4 targetAddr6 allowedSubnets protocol mark
        fuel).1 = Outcome.returned) := by
  refine ⟨?_, ?_, handler_returns d net conn verbose targetAddr4 targetAddr6
    allowedSubnets protocol mark fuel⟩
  · apply handler_cases d net conn verbose targetAddr4 targetAddr6 allowedSubnets protocol mark
      fuel (fun r => r.2.countP isConnClose ≤ 1 ∧
        r.2.countP isUpstreamClose ≤ r.2.countP isDialOk ∧ r.2.countP isDialOk ≤ 1)
    · intros; simp [isConnClose, isUpstreamClose, isDialOk]
    · intros
      simp [List.countP_append, headerSeg_countP, isConnClose, isUpstreamClose, isDialOk]
    · intros
      simp [List.countP_append, headerSeg_countP, isConnClose, isUpstreamClose, isDialOk]
    · intros
      simp [List.countP_append, dialSeg_countP, isConnClose, isUpstreamClose, isDialOk]
    · intro up _ _ _ _
      refine ⟨?_, ?_, ?_, ?_, ?_⟩
      all_goals
        intros
        simp [List.countP_append, dialSeg_countP, tuneSeg_countP, flushLoop_countP,
          closingLog_countP, isConnClose, isUpstreamClose, isDialOk]
  · apply handler_cases d net conn verbose targetAddr4 targetAddr6 allowedSubnets protocol mark
      fuel (fun r => (r.1 = Outcome.returned ∨ r.1 = Outcome.panicked) →
        r.2.countP isConnClose = 1 ∧
        (r.2.countP isDialOk = 1 → r.2.countP isUpstreamClose = 1) ∧
        (r.2.countP isDialOk = 0 → r.2.countP isUpstreamClose = 0))
    · intros; simp [isConnClose, isUpstreamClose, isDialOk]
    · intros
      simp [List.countP_append, headerSeg_countP, isConnClose, isUpstreamClose, isDialOk]
    · intros
      simp [List.countP_append, headerSeg_countP, isConnClose, isUpstreamClose, isDialOk]
    · intros
      simp [List.countP_append, dialSeg_countP, isConnClose, isUpstreamClose, isDialOk]
    · intro up _ _ _ _
      refine ⟨?_, ?_, ?_, ?_, ?_⟩
      · intros
        simp [List.countP_append, dialSeg_countP, tuneSeg_countP, flushLoop_countP,
          isConnClose, isUpstreamClose, isDialOk]
      · intros
        simp [List.countP_append, dialSeg_countP, tuneSeg_countP, flushLoop_countP,
          isConnClose, isUpstreamClose, isDialOk]
      · intro _ h
        simp at h
      · intro _ _ h
        simp at h
      · intros
        simp [List.countP_append, dialSeg_countP, tuneSeg_countP, flushLoop_countP,
          closingLog_countP, isConnClose, isUpstreamClose, isDialOk]

/-- C8, at a relayed connection (dial accepted, leftover bytes flushed, first relay result
`nil`): the handler returns and each connection is closed exactly once. -/
theorem C8_connections_closed_once_witness :
    (tcpHandleConnection (sampleDeps sampleDecode) (sampleNet slowUpstream)
        (sampleConn [192, 168, 0, 7]) 0 "127.0.0.1:80" "[::1]:80" [] "tcp" 123 5).1
      = Outcome.returned ∧
    (tcpHandleConnection (sampleDeps sampleDecode) (sampleNet slowUpstream)
        (sampleConn [192, 168, 0, 7]) 0 "127.0.0.1:80" "[::1]:80" [] "tcp" 123 5).2.countP
        isConnClose = 1 ∧
    (tcpHandleConnection (sampleDeps sampleDecode) (sampleNet slowUpstream)
        (sampleConn [192, 168, 0, 7]) 0 "127.0.0.1:80" "[::1]:80" [] "tcp" 123 5).2.countP
        isUpstreamClose = 1 :=
  have hret : (tcpHandleConnection (sampleDeps sampleDecode) (sampleNet slowUpstream)
      (sampleConn [192, 168, 0, 7]) 0 "127.0.0.1:80" "[::1]:80" [] "tcp" 123 5).1
      = Outcome.returned :=
    (C8_connections_closed_once (sampleDeps sampleDecode) (sampleNet slowUpstream)
      (sampleConn [192, 168, 0, 7]) 0 "127.0.0.1:80" "[::1]:80" [] "tcp" 123 5).2.2
      (by
        intro dl nw ad up h
        simp only [sampleNet, Except.ok.injEq] at h
        rw [← h]
        exact slowUpstream_progresses)
      (by simp [sampleNet])
      (by simp [sampleDeps, sampleDecode])
  have h := (C8_connections_closed_once (sampleDeps sampleDecode) (sampleNet slowUpstream)
      (sampleConn [192, 168, 0, 7]) 0 "127.0.0.1:80" "[::1]:80" [] "tcp" 123 5).2.1
      (Or.inl hret)
  ⟨hret, h.1, h.2.1 (by rfl)⟩

/-- C7: in every execution of `tcpHandleConnection` the calls occur in the order header read,
decode, dial, leftover-byte writes, start of the copy tasks; the read, the decode and the dial are
each made at most once, and exactly one read precedes the start of relaying; the decoder is not
called after a read error, the dialer not after a read or decode error, no upstream write is made
unless the dial succeeded, and no copy task is started after a read, decode, dial or write
error. -/
theorem C7_stage_order (d : Deps) (net : Net) (conn : Conn) (verbose : Int)
    (targetAddr4 targetAddr6 : String) (allowedSubnets : List IPNet) (protocol : String)
    (mark : Int) (fuel : Nat) :
    ((tcpHandleConnection d net conn verbose targetAddr4 targetAddr6 allowedSubnets protocol mark
        fuel).2.filterMap stage).Pairwise (fun a b => a ≤ b) ∧
    ((tcpHandleConnection d net conn verbose targetAddr4 targetAddr6 allowedSubnets protocol mark
        fuel).2.countP isConnRead ≤ 1 ∧
      (tcpHandleConnection d net conn verbose targetAddr4 targetAddr6 allowedSubnets protocol mark
        fuel).2.countP isDecode ≤ 1 ∧
      (tcpHandleConnection d net conn verbose targetAddr4 targetAddr6 allowedSubnets protocol mark
        fuel).2.countP isDial ≤ 1) ∧
    ((tcpHandleConnection d net conn verbose targetAddr4 targetAddr6 allowedSubnets protocol mark
        fuel).2.countP isGoCopy ≠ 0 →
      (tcpHandleConnection d net conn verbose targetAddr4 targetAddr6 allowedSubnets protocol mark
        fuel).2.countP isConnRead = 1) ∧
    (conn.read.err ≠ none →
      (tcpHandleConnection d net conn verbose targetAddr4 targetAddr6 allowedSubnets protocol mark
        fuel).2.countP isDecode = 0 ∧
      (tcpHandleConnection d net conn verbose targetAddr4 targetAddr6 allowedSubnets protocol mark
        fuel).2.countP isDial = 0 ∧
      (tcpHandleConnection d net conn verbose targetAddr4 targetAddr6 allowedSubnets protocol mark
        fuel).2.countP isWrite = 0 ∧
      (tcpHandleConnection d net conn verbose targetAddr4 targetAddr6 allowedSubnets protocol mark
        fuel).2.countP isGoCopy = 0) ∧
    ((d.PROXYReadRemoteAddr conn.read.data Protocol.TCP).err ≠ none →
      (tcpHandleConnection d net conn verbose targetAddr4 targetAddr6 allowedSubnets protocol mark
        fuel).2.countP isDial = 0 ∧
      (tcpHandleConnection d net conn verbose targetAddr4 targetAddr6 allowedSubnets protocol mark
        fuel).2.countP isWrite = 0 ∧
      (tcpHandleConnection d net conn verbose targetAddr4 targetAddr6 allowedSubnets protocol mark
        fuel).2.countP isGoCopy = 0) ∧
    ((tcpHandleConnection d net conn verbose targetAddr4 targetAddr6 allowedSubnets protocol mark
        fuel).2.countP isDialOk = 0 →
      (tcpHandleConnection d net conn verbose targetAddr4 targetAddr6 allowedSubnets protocol mark
        fuel).2.countP isWrite = 0 ∧
      (tcpHandleConnection d net conn verbose targetAddr4 targetAddr6 allowedSubnets protocol mark
        fuel).2.countP isGoCopy = 0) ∧
    ((tcpHandleConnection d net conn verbose targetAddr4 targetAddr6 allowedSubnets protocol mark
        fuel).2.countP isFailedWrite ≠ 0 →
      (tcpHandleConnection d net conn verbose targetAddr4 targetAddr6 allowedSubnets protocol mark
        fuel).2.countP isGoCopy = 0) := by
  refine ⟨?_, ?_, ?_, ?_, ?_, ?_, ?_⟩
  · apply handler_cases d net conn verbose targetAddr4 targetAddr6 allowedSubnets protocol mark
      fuel (fun r => (r.2.filterMap stage).Pairwise (fun a b => a ≤ b))
    · intros; simp [stage]
    · intros; simp [List.filterMap_append, headerSeg_stage, stage]
    · intros; simp [List.filterMap_append, headerSeg_stage, stage]
    · intros; simp [List.filterMap_append, dialSeg_stage, stage]
    · intro up _ _ _ _
      have h4 := flushLoop_stage up fuel 0
        (d.PROXYReadRemoteAddr conn.read.data Protocol.TCP).restBytes
      refine ⟨?_, ?_, ?_, ?_, ?_⟩
      · intros
        have := stages_ordered _ [] h4 (by simp)
        simpa [List.filterMap_append, dialSeg_stage, tuneSeg_stage, stage] using this
      · intros
        have := stages_ordered _ [] h4 (by simp)
        simpa [List.filterMap_append, dialSeg_stage, tuneSeg_stage, stage] using this
      · intros
        have := stages_ordered _ [] h4 (by simp)
        simpa [List.filterMap_append, dialSeg_stage, tuneSeg_stage, stage] using this
      · intros
        have := stages_ordered _ [5, 5] h4 (by simp)
        simpa [List.filterMap_append, dialSeg_stage, tuneSeg_stage, stage] using this
      · intros
        have := stages_ordered _ [5, 5] h4 (by simp)
        simpa [List.filterMap_append, dialSeg_stage, tuneSeg_stage, closingLog_stage, stage]
          using this
  · apply handler_cases d net conn verbose targetAddr4 targetAddr6 allowedSubnets protocol mark
      fuel (fun r => r.2.countP isConnRead ≤ 1 ∧ r.2.countP isDecode ≤ 1 ∧
        r.2.countP isDial ≤ 1)
    · intros; simp [isConnRead, isDecode, isDial]
    · intros; simp [List.countP_append, headerSeg_countP, isConnRead, isDecode, isDial]
    · intros; simp [List.countP_append, headerSeg_countP, isConnRead, isDecode, isDial]
    · intros; simp [List.countP_append, dialSeg_countP, isConnRead, isDecode, isDial]
    · intro up _ _ _ _
      refine ⟨?_, ?_, ?_, ?_, ?_⟩
      all_goals
        intros
        simp [List.countP_append, dialSeg_countP, tuneSeg_countP, flushLoop_countP,
          closingLog_countP, isConnRead, isDecode, isDial]
  · apply handler_cases d net conn verbose targetAddr4 targetAddr6 allowedSubnets protocol mark
      fuel (fun r => r.2.countP isGoCopy ≠ 0 → r.2.countP isConnRead = 1)
    · intro _
      simp [isConnRead, isGoCopy]
    · intro _ _ _
      simp [List.countP_append, headerSeg_countP, isConnRead, isGoCopy]
    · intro _ _ _ _
      simp [List.countP_append, headerSeg_countP, isConnRead, isGoCopy]
    · intro _ _ _ _ _
      simp [List.countP_append, dialSeg_countP, isConnRead, isGoCopy]
    · intro up _ _ _ _
      refine ⟨?_, ?_, ?_, ?_, ?_⟩
      all_goals
        intros
        simp [List.countP_append, dialSeg_countP, tuneSeg_countP, flushLoop_countP,
          closingLog_countP, isConnRead]
  · intro hre
    apply handler_cases d net conn verbose targetAddr4 targetAddr6 allowedSubnets protocol mark
      fuel (fun r => r.2.countP isDecode = 0 ∧ r.2.countP isDial = 0 ∧
        r.2.countP isWrite = 0 ∧ r.2.countP isGoCopy = 0)
    · intros; simp [isDecode, isDial, isWrite, isGoCopy]
    · intros
      simp [List.countP_append, headerSeg_countP, isDecode, isDial, isWrite, isGoCopy]
    · intro _ _ h; exact absurd h hre
    · intro _ _ h; exact absurd h hre
    · intro _ _ h; exact absurd h hre
  · intro hde
    apply handler_cases d net conn verbose targetAddr4 targetAddr6 allowedSubnets protocol mark
      fuel (fun r => r.2.countP isDial = 0 ∧ r.2.countP isWrite = 0 ∧ r.2.countP isGoCopy = 0)
    · intros; simp [isDial, isWrite, isGoCopy]
    · intros
      simp [List.countP_append, headerSeg_countP, isDial, isWrite, isGoCopy]
    · intros
      simp [List.countP_append, headerSeg_countP, isDial, isWrite, isGoCopy]
    · intro _ _ _ h; exact absurd h hde
    · intro _ _ _ h; exact absurd h hde
  · apply handler_cases d net conn verbose targetAddr4 targetAddr6 allowedSubnets protocol mark
      fuel (fun r => r.2.countP isDialOk = 0 →
        r.2.countP isWrite = 0 ∧ r.2.countP isGoCopy = 0)
    · intros; simp [isWrite, isGoCopy]
    · intros
      simp [List.countP_append, headerSeg_countP, isWrite, isGoCopy]
    · intros
      simp [List.countP_append, headerSeg_countP, isWrite, isGoCopy]
    · intros
      simp [List.countP_append, dialSeg_countP, isWrite, isGoCopy]
    · intro up _ _ _ _
      refine ⟨?_, ?_, ?_, ?_, ?_⟩
      · intro _ h
        simp [List.countP_append, dialSeg_countP, isDialOk] at h
      · intro _ h
        simp [List.countP_append, dialSeg_countP, isDialOk] at h
      · intro _ h
        simp [List.countP_append, dialSeg_countP, isDialOk] at h
      · intro _ _ h
        simp [List.countP_append, dialSeg_countP, isDialOk] at h
      · intro _ _ _ h
        simp [List.countP_append, dialSeg_countP, isDialOk] at h
  · apply handler_cases d net conn verbose targetAddr4 targetAddr6 allowedSubnets protocol mark
      fuel (fun r => r.2.countP isFailedWrite ≠ 0 → r.2.countP isGoCopy = 0)
    · intros; simp [isGoCopy]
    · intros
      simp [List.countP_append, headerSeg_countP, isGoCopy]
    · intros
      simp [List.countP_append, headerSeg_countP, isGoCopy]
    · intros
      simp [List.countP_append, dialSeg_countP, isGoCopy]
    · intro up _ _ _ _
      refine ⟨?_, ?_, ?_, ?_, ?_⟩
      · intros
        simp [List.countP_append, dialSeg_countP, tuneSeg_countP, flushLoop_countP, isGoCopy]
      · intros
        simp [List.countP_append, dialSeg_countP, tuneSeg_countP, flushLoop_countP, isGoCopy]
      · intros
        simp [List.countP_append, dialSeg_countP, tuneSeg_countP, flushLoop_countP, isGoCopy]
      · intro hdone _ hf
        exfalso
        apply hf
        simp [List.countP_append, dialSeg_countP, tuneSeg_countP, closingLog_countP,
          flushLoop_failed, hdone, isFailedWrite]
      · intro r hdone _ hf
        exfalso
        apply hf
        simp [List.countP_append, dialSeg_countP, tuneSeg_countP, closingLog_countP,
          flushLoop_failed, hdone, isFailedWrite]

/-- C7, at a connection whose read fails (no decode follows), at an upstream whose second write
fails (no copy task follows), and at a relayed connection (one read before the relay). -/
theorem C7_stage_order_witness :
    (tcpHandleConnection (sampleDeps sampleDecode) (sampleNet slowUpstream) deadConn 0
        "127.0.0.1:80" "[::1]:80" [] "tcp" 123 5).2.countP isDecode = 0 ∧
    (tcpHandleConnection (sampleDeps sampleDecode) (sampleNet failingUpstream)
        (sampleConn [192, 168, 0, 7]) 0 "127.0.0.1:80" "[::1]:80" [] "tcp" 123 5).2.countP
        isGoCopy = 0 ∧
    (tcpHandleConnection (sampleDeps sampleDecode) (sampleNet slowUpstream)
        (sampleConn [192, 168, 0, 7]) 0 "127.0.0.1:80" "[::1]:80" [] "tcp" 123 5).2.countP
        isConnRead = 1 :=
  ⟨((C7_stage_order (sampleDeps sampleDecode) (sampleNet slowUpstream) deadConn 0
      "127.0.0.1:80" "[::1]:80" [] "tcp" 123 5).2.2.2.1 (by simp [deadConn])).1,
   (C7_stage_order (sampleDeps sampleDecode) (sampleNet failingUpstream)
      (sampleConn [192, 168, 0, 7]) 0 "127.0.0.1:80" "[::1]:80" [] "tcp" 123 5).2.2.2.2.2.2
      (by decide),
   (C7_stage_order (sampleDeps sampleDecode) (sampleNet slowUpstream)
      (sampleConn [192, 168, 0, 7]) 0 "127.0.0.1:80" "[::1]:80" [] "tcp" 123 5).2.2.1
      (by decide)⟩

/-- C4: when the flush loop is reached with leftover bytes `restBytes` and an upstream whose
error-free writes report between 1 and `len(p)` bytes, a budget of `len(restBytes)` iterations
suffices: the loop ends after at most `len(restBytes)` writes. If no write fails, the ranges
written add up to `restBytes` exactly and the trace reads: calls before the flush, the writes,
`PutBuffer`, the two `go tcpCopyData`, the rest, with no write after them and no release or copy
task before them. If a write fails the handler returns without starting a copy task. -/
theorem C4_flush_writes_all (d : Deps) (net : Net) (conn : Conn) (verbose : Int)
    (targetAddr4 targetAddr6 : String) (allowedSubnets : List IPNet) (protocol : String)
    (mark : Int) (fuel : Nat) (up : Upstream)
    (ha : d.CheckOriginAllowed conn.remoteAddr.ip allowedSubnets = true)
    (hr : conn.read.err = none)
    (hd : (d.PROXYReadRemoteAddr conn.read.data Protocol.TCP).err = none)
    (hdial : net.dial
        (makeDialer (d.PROXYReadRemoteAddr conn.read.data Protocol.TCP).saddr protocol mark) "tcp"
        (selectTarget d conn (d.PROXYReadRemoteAddr conn.read.data Protocol.TCP).saddr
          targetAddr4 targetAddr6) = Except.ok up)
    (hp : Progresses up)
    (hfuel : (d.PROXYReadRemoteAddr conn.read.data Protocol.TCP).restBytes.length ≤ fuel) :
    ((tcpHandleConnection d net conn verbose targetAddr4 targetAddr6 allowedSubnets protocol mark
        fuel).1 ≠ Outcome.spinning ∧
      (tcpHandleConnection d net conn verbose targetAddr4 targetAddr6 allowedSubnets protocol mark
        fuel).1 ≠ Outcome.panicked) ∧
    (tcpHandleConnection d net conn verbose targetAddr4 targetAddr6 allowedSubnets protocol mark
        fuel).2.countP isWrite ≤
      (d.PROXYReadRemoteAddr conn.read.data Protocol.TCP).restBytes.length ∧
    ((tcpHandleConnection d net conn verbose targetAddr4 targetAddr6 allowedSubnets protocol mark
        fuel).2.countP isFailedWrite = 0 →
      accepted (tcpHandleConnection d net conn verbose targetAddr4 targetAddr6 allowedSubnets
        protocol mark fuel).2 = (d.PROXYReadRemoteAddr conn.read.data Protocol.TCP).restBytes ∧
      ∃ pre ws post,
        (tcpHandleConnection d net conn verbose targetAddr4 targetAddr6 allowedSubnets protocol
          mark fuel).2 =
          pre ++ ws ++ Event.putBuffer :: Event.goCopy Side.upstream Side.downstream ::
            Event.goCopy Side.downstream Side.upstream :: post ∧
        accepted ws = (d.PROXYReadRemoteAddr conn.read.data Protocol.TCP).restBytes ∧
        pre.countP isWrite = 0 ∧ post.countP isWrite = 0 ∧
        (pre ++ ws).countP isPutBuffer = 0 ∧ (pre ++ ws).countP isGoCopy = 0) ∧
    ((tcpHandleConnection d net conn verbose targetAddr4 targetAddr6 allowedSubnets protocol mark
        fuel).2.countP isFailedWrite ≠ 0 →
      (tcpHandleConnection d net conn verbose targetAddr4 targetAddr6 allowedSubnets protocol mark
        fuel).2.countP isGoCopy = 0 ∧
      (tcpHandleConnection d net conn verbose targetAddr4 targetAddr6 allowedSubnets protocol mark
        fuel).1 = Outcome.returned) := by
  obtain ⟨hend, hcnt, hacc⟩ := flushLoop_progress up hp fuel 0 _ hfuel
  have hfailed := flushLoop_failed up fuel 0
    (d.PROXYReadRemoteAddr conn.read.data Protocol.TCP).restBytes
  apply handler_cases d net conn verbose targetAddr4 targetAddr6 allowedSubnets protocol mark
    fuel (fun r => (r.1 ≠ Outcome.spinning ∧ r.1 ≠ Outcome.panicked) ∧
      r.2.countP isWrite ≤ (d.PROXYReadRemoteAddr conn.read.data Protocol.TCP).restBytes.length ∧
      (r.2.countP isFailedWrite = 0 →
        accepted r.2 = (d.PROXYReadRemoteAddr conn.read.data Protocol.TCP).restBytes ∧
        ∃ pre ws post,
          r.2 = pre ++ ws ++ Event.putBuffer :: Event.goCopy Side.upstream Side.downstream ::
            Event.goCopy Side.downstream Side.upstream :: post ∧
          accepted ws = (d.PROXYReadRemoteAddr conn.read.data Protocol.TCP).restBytes ∧
          pre.countP isWrite = 0 ∧ post.countP isWrite = 0 ∧
          (pre ++ ws).countP isPutBuffer = 0 ∧ (pre ++ ws).countP isGoCopy = 0) ∧
      (r.2.countP isFailedWrite ≠ 0 → r.2.countP isGoCopy = 0 ∧ r.1 = Outcome.returned))
  · intro h; rw [ha] at h; cases h
  · intro e _ h; rw [hr] at h; cases h
  · intro e _ _ h; rw [hd] at h; cases h
  · intro e _ _ _ h; rw [hdial] at h; cases h
  · intro up1 _ _ _ h
    rw [hdial] at h
    injection h with h
    subst h
    refine ⟨?_, ?_, ?_, ?_, ?_⟩
    · intro hf
      rw [hf] at hfailed
      refine ⟨⟨by simp, by simp⟩, ?_, ?_, ?_⟩
      · simpa [List.countP_append, dialSeg_countP, tuneSeg_countP, isWrite] using hcnt
      · intro h0
        simp [List.countP_append, dialSeg_countP, tuneSeg_countP, isFailedWrite, hfailed] at h0
      · intro _
        simp [List.countP_append, dialSeg_countP, tuneSeg_countP, flushLoop_countP, isGoCopy]
    · intro hf
      rw [hf] at hend
      rcases hend with h | h <;> cases h
    · intro hf
      rw [hf] at hend
      rcases hend with h | h <;> cases h
    · intro hf _
      rw [hf] at hfailed
      refine ⟨⟨by simp, by simp⟩, ?_, ?_, ?_⟩
      · simpa [List.countP_append, dialSeg_countP, tuneSeg_countP, isWrite] using hcnt
      · intro _
        refine ⟨?_, dialSeg d conn verbose targetAddr4 targetAddr6 protocol mark true
          ++ tuneSeg conn up verbose, _, [], rfl, hacc hf, ?_, ?_, ?_, ?_⟩
        · simp [accepted_append, hacc hf, accepted, accepted_nil_of_countP, dialSeg_countP,
            tuneSeg_countP, isWrite]
        · simp [List.countP_append, dialSeg_countP, tuneSeg_countP, isWrite]
        · simp
        · simp [List.countP_append, dialSeg_countP, tuneSeg_countP, flushLoop_countP,
            isPutBuffer]
        · simp [List.countP_append, dialSeg_countP, tuneSeg_countP, flushLoop_countP, isGoCopy]
      · intro h0
        exfalso
        apply h0
        simp [List.countP_append, dialSeg_countP, tuneSeg_countP, isFailedWrite, hfailed]
    · intro r hf _
      rw [hf] at hfailed
      refine ⟨⟨by simp, by simp⟩, ?_, ?_, ?_⟩
      · simpa [List.countP_append, dialSeg_countP, tuneSeg_countP, closingLog_countP, isWrite]
          using hcnt
      · intro _
        refine ⟨?_, dialSeg d conn verbose targetAddr4 targetAddr6 protocol mark true
          ++ tuneSeg conn up verbose, _,
          Event.recv r :: (closingLog r verbose ++ [Event.upstreamClose, Event.connClose]),
          by simp, hacc hf, ?_, ?_, ?_, ?_⟩
        · simp [accepted_append, hacc hf, accepted, accepted_nil_of_countP, dialSeg_countP,
            tuneSeg_countP, closingLog_countP, isWrite]
        · simp [List.countP_append, dialSeg_countP, tuneSeg_countP, isWrite]
        · simp [List.countP_append, closingLog_countP, isWrite]
        · simp [List.countP_append, dialSeg_countP, tuneSeg_countP, flushLoop_countP,
            isPutBuffer]
        · simp [List.countP_append, dialSeg_countP, tuneSeg_countP, flushLoop_countP, isGoCopy]
      · intro h0
        exfalso
        apply h0
        simp [List.countP_append, dialSeg_countP, tuneSeg_countP, closingLog_countP,
          isFailedWrite, hfailed]

/-- C4, at the leftover bytes `GET /` and an upstream that takes two bytes per write: three
writes, no failure, and the bytes written are `GET /`. -/
theorem C4_flush_writes_all_witness :
    (tcpHandleConnection (sampleDeps sampleDecode) (sampleNet slowUpstream)
        (sampleConn [192, 168, 0, 7]) 0 "127.0.0.1:80" "[::1]:80" [] "tcp" 123 5).2.countP
        isWrite ≤ 5 ∧
    accepted (tcpHandleConnection (sampleDeps sampleDecode) (sampleNet slowUpstream)
        (sampleConn [192, 168, 0, 7]) 0 "127.0.0.1:80" "[::1]:80" [] "tcp" 123 5).2
      = [71, 69, 84, 32, 47] :=
  have h := C4_flush_writes_all (sampleDeps sampleDecode) (sampleNet slowUpstream)
    (sampleConn [192, 168, 0, 7]) 0 "127.0.0.1:80" "[::1]:80" [] "tcp" 123 5 slowUpstream
    (by simp [sampleDeps, sampleConn]) (by simp [sampleConn])
    (by simp [sampleDeps, sampleDecode]) (by simp [sampleNet]) slowUpstream_progresses
    (by simp [sampleDeps, sampleDecode])
  ⟨h.2.1, (h.2.2.1 (by decide)).1⟩

/-- C9: an execution of `tcpHandleConnection` starts no copy task or exactly the two tasks
downstream-to-upstream and upstream-to-downstream, receives at most one result from `outErr`, and
once it has received one it returns with both connections closed. In every state the relaying
phase can reach, under any interleaving, each task has published at most once (exactly once when
it has returned), the handler has received at most once, at most two values were ever sent to the
channel of capacity 2, a task standing at its send can complete it (the publish does not block),
and a handler holding the first result can close both connections whatever the other task does. -/
theorem C9_relay_first_result (d : Deps) (net : Net) (conn : Conn) (verbose : Int)
    (targetAddr4 targetAddr6 : String) (allowedSubnets : List IPNet) (protocol : String)
    (mark : Int) (fuel : Nat) (sched : List RelayAction) (s : RelayState)
    (hrun : RelayState.init.run sched = some s) :
    (((tcpHandleConnection d net conn verbose targetAddr4 targetAddr6 allowedSubnets protocol mark
          fuel).2.filter isGoCopy = [] ∨
        (tcpHandleConnection d net conn verbose targetAddr4 targetAddr6 allowedSubnets protocol mark
          fuel).2.filter isGoCopy =
          [Event.goCopy Side.upstream Side.downstream,
           Event.goCopy Side.downstream Side.upstream]) ∧
      (tcpHandleConnection d net conn verbose targetAddr4 targetAddr6 allowedSubnets protocol mark
          fuel).2.countP isRecv ≤ 1 ∧
      ((tcpHandleConnection d net conn verbose targetAddr4 targetAddr6 allowedSubnets protocol mark
          fuel).2.countP isRecv = 1 →
        (tcpHandleConnection d net conn verbose targetAddr4 targetAddr6 allowedSubnets protocol mark
          fuel).1 = Outcome.returned ∧
        (tcpHandleConnection d net conn verbose targetAddr4 targetAddr6 allowedSubnets protocol mark
          fuel).2.countP isUpstreamClose = 1 ∧
        (tcpHandleConnection d net conn verbose targetAddr4 targetAddr6 allowedSubnets protocol mark
          fuel).2.countP isConnClose = 1)) ∧
    (s.sentUp ≤ 1 ∧ s.sentDown ≤ 1 ∧
      (s.toUpstream.isFinished = true → s.sentUp = 1) ∧
      (s.toDownstream.isFinished = true → s.sentDown = 1) ∧
      s.receives ≤ 1 ∧
      s.sentUp + s.sentDown ≤ outErrCap ∧
      s.chan.length ≤ outErrCap ∧
      (s.toUpstream.atSend = true → (s.step (RelayAction.send Side.upstream)).isSome = true) ∧
      (s.toDownstream.atSend = true →
        (s.step (RelayAction.send Side.downstream)).isSome = true) ∧
      (s.handler.hasResult = true → (s.step RelayAction.closeBoth).isSome = true)) := by
  constructor
  · apply handler_cases d net conn verbose targetAddr4 targetAddr6 allowedSubnets protocol mark
      fuel (fun r => (r.2.filter isGoCopy = [] ∨
          r.2.filter isGoCopy =
            [Event.goCopy Side.upstream Side.downstream,
             Event.goCopy Side.downstream Side.upstream]) ∧
        r.2.countP isRecv ≤ 1 ∧
        (r.2.countP isRecv = 1 →
          r.1 = Outcome.returned ∧ r.2.countP isUpstreamClose = 1 ∧
          r.2.countP isConnClose = 1))
    · intro _
      simp [isGoCopy, isRecv]
    · intro _ _ _
      simp [List.filter_append, List.countP_append, filter_nil_of_countP, headerSeg_countP,
        isGoCopy, isRecv]
    · intro _ _ _ _
      simp [List.filter_append, List.countP_append, filter_nil_of_countP, headerSeg_countP,
        isGoCopy, isRecv]
    · intro _ _ _ _ _
      simp [List.filter_append, List.countP_append, filter_nil_of_countP, dialSeg_countP,
        isGoCopy, isRecv]
    · intro up _ _ _ _
      refine ⟨?_, ?_, ?_, ?_, ?_⟩
      · intro _
        simp [List.filter_append, List.countP_append, filter_nil_of_countP, dialSeg_countP,
          tuneSeg_countP, flushLoop_countP, isGoCopy, isRecv]
      · intro _
        simp [List.filter_append, List.countP_append, filter_nil_of_countP, dialSeg_countP,
          tuneSeg_countP, flushLoop_countP, isGoCopy, isRecv]
      · intro _
        simp [List.filter_append, List.countP_append, filter_nil_of_countP, dialSeg_countP,
          tuneSeg_countP, flushLoop_countP, isGoCopy, isRecv]
      · intro _ _
        simp [List.filter_append, List.countP_append, filter_nil_of_countP, dialSeg_countP,
          tuneSeg_countP, flushLoop_countP, isGoCopy, isRecv]
      · intro r _ _
        simp [List.filter_append, List.countP_append, filter_nil_of_countP, dialSeg_countP,
          tuneSeg_countP, flushLoop_countP, closingLog_countP, isGoCopy, isRecv,
          isUpstreamClose, isConnClose]
  · obtain ⟨i1, i2, i3, i4, _⟩ := relayInv_run sched _ s relayInv_init hrun
    have hup : s.sentUp ≤ 1 := by rw [i1]; split <;> omega
    have hdown : s.sentDown ≤ 1 := by rw [i2]; split <;> omega
    have hrecv : s.receives ≤ 1 := by rw [i4]; split <;> omega
    refine ⟨hup, hdown, ?_, ?_, hrecv, ?_, ?_, ?_, ?_, ?_⟩
    · intro h; rw [i1, h]; rfl
    · intro h; rw [i2, h]; rfl
    · unfold outErrCap; omega
    · unfold outErrCap; omega
    · intro h
      cases hu : s.toUpstream with
      | copying => simp [hu, TaskPC.atSend] at h
      | finished => simp [hu, TaskPC.atSend] at h
      | sending e =>
        have h0 : s.sentUp = 0 := by rw [i1, hu]; rfl
        have hlen : s.chan.length < outErrCap := by unfold outErrCap; omega
        simp [RelayState.step_eq, hu, sendTo, hlen]
    · intro h
      cases hu : s.toDownstream with
      | copying => simp [hu, TaskPC.atSend] at h
      | finished => simp [hu, TaskPC.atSend] at h
      | sending e =>
        have h0 : s.sentDown = 0 := by rw [i2, hu]; rfl
        have hlen : s.chan.length < outErrCap := by unfold outErrCap; omega
        simp [RelayState.step_eq, hu, sendTo, hlen]
    · intro h
      cases hh : s.handler with
      | receiving => simp [hh, HandlerPC.hasResult] at h
      | returned => simp [hh, HandlerPC.hasResult] at h
      | received e => simp [RelayState.step_eq, hh]

/-- C9, at the schedule where the handler has received the first result and closed both
connections before the second task reaches its send: that send completes. -/
theorem C9_relay_first_result_witness :
    RelayState.init.run lateLoser = some lateLoserState ∧
    lateLoserState.toDownstream.atSend = true ∧
    (lateLoserState.step (RelayAction.send Side.downstream)).isSome = true :=
  ⟨rfl, rfl,
    (C9_relay_first_result (sampleDeps sampleDecode) (sampleNet slowUpstream)
      (sampleConn [192, 168, 0, 7]) 0 "127.0.0.1:80" "[::1]:80" [] "tcp" 123 5
      lateLoser lateLoserState rfl).2.2.2.2.2.2.2.2.2.1 rfl⟩

/-- C10: in a run of `TCPListen`, if binding the listener fails, the error is sent on the errors
channel and the function returns without any `Accept`; if the `j`-th `Accept` is the first to
fail, that error is the only one sent, it is the last call (no `Accept` follows), `j + 1` accepts
were made and each of the `j` connections accepted before was handed to its own
`tcpHandleConnection` task. What the handler tasks meet (decoder, network, budget) changes neither
the listener's calls nor the way the loop ends, and while no `Accept` fails the loop keeps
accepting and sends nothing. -/
theorem C10_listener_fatal_errors (d : Deps) (env : ListenEnv) (tasks : TaskEnv) (verbose : Int)
    (listenAddr : String) (targetAddr4 targetAddr6 : String) (allowedSubnets : List IPNet)
    (protocol : String) (mark : Int) (fuel : Nat) :
    (∀ e, env.listen = some e →
      TCPListen d env tasks verbose listenAddr targetAddr4 targetAddr6 allowedSubnets protocol
          mark fuel =
        (ListenOutcome.returned,
          [ListenEvent.listen "tcp" listenAddr, ListenEvent.logError "failed to bind listener",
           ListenEvent.sendError e])) ∧
    (∀ j e, env.listen = none → env.accept j = Except.error e →
      (∀ i, i < j → ∃ c, env.accept i = Except.ok c) → j < fuel →
      (TCPListen d env tasks verbose listenAddr targetAddr4 targetAddr6 allowedSubnets protocol
          mark fuel).1 = ListenOutcome.returned ∧
      sentErrors (TCPListen d env tasks verbose listenAddr targetAddr4 targetAddr6 allowedSubnets
          protocol mark fuel).2 = [e] ∧
      ∃ pre,
        (TCPListen d env tasks verbose listenAddr targetAddr4 targetAddr6 allowedSubnets protocol
          mark fuel).2 = pre ++ [ListenEvent.sendError e] ∧
        sentErrors pre = [] ∧ pre.countP isAccept = j + 1 ∧
        spawns pre = (List.range j).filterMap
          (acceptedTask d env tasks verbose targetAddr4 targetAddr6 allowedSubnets protocol
            mark)) ∧
    (∀ d1 tasks1,
      (TCPListen d1 env tasks1 verbose listenAddr targetAddr4 targetAddr6 allowedSubnets protocol
          mark fuel).1 =
        (TCPListen d env tasks verbose listenAddr targetAddr4 targetAddr6 allowedSubnets protocol
          mark fuel).1 ∧
      ownCalls (TCPListen d1 env tasks1 verbose listenAddr targetAddr4 targetAddr6 allowedSubnets
          protocol mark fuel).2 =
        ownCalls (TCPListen d env tasks verbose listenAddr targetAddr4 targetAddr6 allowedSubnets
          protocol mark fuel).2) ∧
    (env.listen = none → (∀ i, ∃ c, env.accept i = Except.ok c) →
      (TCPListen d env tasks verbose listenAddr targetAddr4 targetAddr6 allowedSubnets protocol
          mark fuel).1 = ListenOutcome.accepting ∧
      sentErrors (TCPListen d env tasks verbose listenAddr targetAddr4 targetAddr6 allowedSubnets
          protocol mark fuel).2 = [] ∧
      (TCPListen d env tasks verbose listenAddr targetAddr4 targetAddr6 allowedSubnets protocol
          mark fuel).2.countP isAccept = fuel) := by
  refine ⟨?_, ?_, ?_, ?_⟩
  · intro e he
    simp [TCPListen, he]
  · intro j e hl hfail hok hfuel
    obtain ⟨hout, pre, hpre, hs, hcnt, hsp⟩ :=
      acceptLoop_fails d env tasks verbose targetAddr4 targetAddr6 allowedSubnets protocol mark
        e j 0 fuel (by simpa using hfail) (by simpa using hok) hfuel
    refine ⟨by simp [TCPListen, hl, hout], ?_,
      [ListenEvent.listen "tcp" listenAddr, ListenEvent.logInfo "listening"] ++ pre, ?_, ?_, ?_,
      ?_⟩
    · simp [TCPListen, hl, hpre, sentErrors_append, sentErrors, hs]
    · simp [TCPListen, hl, hpre]
    · simp [sentErrors, hs]
    · simp [isAccept, hcnt]
    · rw [List.range_eq_range']
      simp [spawns, hsp]
  · intro d1 tasks1
    obtain ⟨h1, h2⟩ := acceptLoop_independent d d1 env tasks tasks1 verbose targetAddr4
      targetAddr6 allowedSubnets protocol mark fuel 0
    cases hl : env.listen with
    | some e => simp [TCPListen, hl]
    | none => simp [TCPListen, hl, h1, h2, ownCalls]
  · intro hl hok
    obtain ⟨h1, h2, h3⟩ := acceptLoop_runs d env tasks verbose targetAddr4 targetAddr6
      allowedSubnets protocol mark hok fuel 0
    simp [TCPListen, hl, h1, h2, h3, sentErrors, isAccept]

/-- C10, at a listener whose third `Accept` fails after a healthy connection and one whose read
fails: the listener returns having sent that one error. -/
theorem C10_listener_fatal_errors_witness :
    (TCPListen (sampleDeps sampleDecode) sampleListenEnv sampleTasks 0 "0.0.0.0:443"
        "127.0.0.1:80" "[::1]:80" [] "tcp" 123 10).1 = ListenOutcome.returned ∧
    sentErrors (TCPListen (sampleDeps sampleDecode) sampleListenEnv sampleTasks 0 "0.0.0.0:443"
        "127.0.0.1:80" "[::1]:80" [] "tcp" 123 10).2 = ["too many open files"] :=
  have h := (C10_listener_fatal_errors (sampleDeps sampleDecode) sampleListenEnv sampleTasks 0
      "0.0.0.0:443" "127.0.0.1:80" "[::1]:80" [] "tcp" 123 10).2.1 2 "too many open files"
      rfl rfl
      (by
        intro i hi
        have hcases : i = 0 ∨ i = 1 := by omega
        rcases hcases with h | h
        · exact ⟨sampleConn [192, 168, 0, 7], by simp [h, sampleListenEnv]⟩
        · exact ⟨deadConn, by simp [h, sampleListenEnv]⟩)
      (by decide)
  ⟨h.1, h.2.1⟩

end Mmproxy
